import Mathlib

/-!
Verification development for the aa_uv repository (raw radio-telescope
correlator dumps converted to a canonical visibility model and re-exported
to downstream interchange formats).

The Python sources are shallowly embedded: numpy float arrays become lists
of rationals, h5py containers become explicit record types, Python dicts
become association lists with override semantics, and fallible code runs
in the Except monad over a model of the Python exception classes the code
actually raises.  Each definition mirrors one function of the source tree
(the file and function are named in its doc comment).
-/

namespace AaUv

/-- Scalar or small-array values held in Python dicts, YAML mappings and
HDF5 attribute sets in this code base: strings, (numpy) ints, floats
(modelled as rationals), bools, and 1-D arrays thereof. -/
inductive Val where
  | s (v : String)
  | i (v : Int)
  | q (v : ℚ)
  | b (v : Bool)
  | sArr (v : List String)
  | iArr (v : List Int)
  | qArr (v : List ℚ)
deriving DecidableEq, Repr

/-- A Python dict / HDF5 attribute set: association list, unique keys in
all real uses; assignment overrides. -/
abbrev Attrs := List (String × Val)

/-- Model of the Python exception values this code base can raise.  The
first group are the concrete exception classes appearing in the source
(`raise Exception(...)`, `NotImplementedError`, `RuntimeError`, plus the
built-ins h5py / list indexing raise).  The last three constructors are
Modelled from the spec: the specification's error taxonomy names the
classes MissingMetadataError, UnsupportedLayoutError and
ConfigResolutionError, none of which is defined anywhere in the source;
they are included so that claims naming them can be stated and compared
with what the code actually raises. -/
inductive PyErr where
  | pyException (msg : String)
  | keyError (key : String)
  | indexError (msg : String)
  | typeError (msg : String)
  | valueError (msg : String)
  | fileNotFoundError (path : String)
  | runtimeError (msg : String)
  | notImplementedError (msg : String)
  | missingMetadataError
  | unsupportedLayoutError
  | configResolutionError
deriving DecidableEq, Repr

/-- Set / override one key of a dict (Python `d[k] = v`): the binding of
an existing key is replaced in place, a fresh key is appended. -/
def dset {β : Type} : List (String × β) → String → β → List (String × β)
  | [], k, v => [(k, v)]
  | (k0, v0) :: rest, k, v =>
      if k0 = k then (k, v) :: rest else (k0, v0) :: dset rest k v

/-- Python `d.update(e)`: assign every binding of `e` into `d`, in order. -/
def dupdate {β : Type} (d e : List (String × β)) : List (String × β) :=
  e.foldl (fun acc kv => dset acc kv.1 kv.2) d

/-- Rebuild a dict by assigning its items one by one into an empty dict
(models the `for k, v in src.items(): dst[k] = v` loops of the source;
identity on dicts with no duplicate keys). -/
def dnorm {β : Type} (d : List (String × β)) : List (String × β) :=
  dupdate [] d

/-- Dict lookup raising KeyError when absent (Python `d[k]`). -/
def dget (d : Attrs) (k : String) : Except PyErr Val :=
  match d.lookup k with
  | some v => .ok v
  | none => .error (.keyError k)

/-- Coerce a numeric value to a rational, as Python arithmetic would use
it (bools count as 0 / 1); non-numeric values give a TypeError. -/
def valQ : Val → Except PyErr ℚ
  | .i n => .ok (n : ℚ)
  | .q v => .ok v
  | .b v => .ok (if v then 1 else 0)
  | _ => .error (.typeError "a number is required")

/-- Dict lookup of a numeric value as a rational. -/
def dgetQ (d : Attrs) (k : String) : Except PyErr ℚ := do
  valQ (← dget d k)

/-- Dict lookup of an integer value (bools count as 0 / 1). -/
def dgetI (d : Attrs) (k : String) : Except PyErr Int := do
  match (← dget d k) with
  | .i n => .ok n
  | .b v => .ok (if v then 1 else 0)
  | _ => .error (.typeError "an integer is required")

/-- Dict lookup of a string value. -/
def dgetS (d : Attrs) (k : String) : Except PyErr String := do
  match (← dget d k) with
  | .s v => .ok v
  | _ => .error (.typeError "a string is required")

/-- Dict lookup of a value used as a Python truth value. -/
def dgetB (d : Attrs) (k : String) : Except PyErr Bool := do
  match (← dget d k) with
  | .b v => .ok v
  | .i n => .ok (n ≠ 0)
  | _ => .error (.typeError "a bool is required")

/-- Python `a * b` on two dict values (numpy scalar attributes): numeric
times numeric; ints stay ints, anything touching a float becomes a float,
bools behave as 0 / 1; other operand combinations give a TypeError. -/
def valMul (v w : Val) : Except PyErr Val :=
  let toInt : Val → Val
    | .b a => .i (if a then 1 else 0)
    | u => u
  match toInt v, toInt w with
  | .i a, .i b => .ok (.i (a * b))
  | .i a, .q b => .ok (.q ((a : ℚ) * b))
  | .q a, .i b => .ok (.q (a * (b : ℚ)))
  | .q a, .q b => .ok (.q (a * b))
  | _, _ => .error (.typeError "unsupported operand type for *")

/-- Unwrap an optional value with a given exception when absent. -/
def ofOption (o : Option α) (e : PyErr) : Except PyErr α :=
  match o with
  | some v => .ok v
  | none => .error e

/-- A complex visibility sample (numpy complex modelled over ℚ). -/
structure QC where
  re : ℚ
  im : ℚ
deriving DecidableEq, Repr

/-- Complex multiplication. -/
def cmul (a b : QC) : QC :=
  ⟨a.re * b.re - a.im * b.im, a.re * b.im + a.im * b.re⟩

/-- Complex conjugation. -/
def cconj (a : QC) : QC := ⟨a.re, -a.im⟩

/-- The raw 4-D correlation payload of a capture, `correlation_matrix/data`
(axis order (time, frequency, baseline, polarization) as stored). -/
abbrev VisPayload := List (List (List (List QC)))

/-- The `correlation_matrix/data` member of a raw capture: its shape
attribute and the payload samples. -/
structure CorrMatrix where
  shape : List Nat
  data : VisPayload
deriving DecidableEq, Repr

/-- A raw correlator HDF5 container as the loaders see it: attribute set
of the `root` group, the optional `correlation_matrix/data` payload, the
optional `sample_timestamps/data` 2-D series, and the optional
`observation_info` group's attributes. -/
structure RawFile where
  rootAttrs : Attrs
  corr : Option CorrMatrix
  sampleTimestamps : Option (List (List ℚ))
  obsInfo : Option Attrs
deriving DecidableEq, Repr

/-- The required root attributes, in the order listed by the source
(src/ska_ost_low_uv/io/to_uvx.py, get_hdf5_metadata). -/
def expectedKeys : List String :=
  ["n_antennas", "ts_end", "n_pols", "n_beams", "tile_id", "n_chans",
   "n_samples", "type", "data_type", "data_mode", "ts_start", "n_baselines",
   "n_stokes", "channel_id", "timestamp", "date_time", "n_blocks"]

/-- Embeds get_hdf5_metadata (src/ska_ost_low_uv/io/to_uvx.py): check the
required root attributes are all present (raising the source's literal
`Exception('Missing metadata in file')` otherwise), copy the attributes
into a metadata dict, derive n_integrations = n_blocks * n_samples, record
the payload shape, and overwrite ts_start with the first entry of the
`sample_timestamps/data` series — an unconditional dereference that
raises KeyError when the series group is absent. -/
def get_hdf5_metadata (f : RawFile) : Except PyErr Attrs := do
  if ¬ (expectedKeys.all fun k => (f.rootAttrs.lookup k).isSome) then
    throw (.pyException "Missing metadata in file")
  else
    let md := f.rootAttrs
    let nBlocks ← dget md "n_blocks"
    let nSamples ← dget md "n_samples"
    let nInt ← valMul nBlocks nSamples
    let md := dset md "n_integrations" nInt
    let corr ← ofOption f.corr (.keyError "correlation_matrix")
    let md := dset md "data_shape" (.iArr (corr.shape.map Int.ofNat))
    let series ← ofOption f.sampleTimestamps (.keyError "sample_timestamps/data")
    let row0 ← ofOption series.head? (.indexError "index 0 is out of bounds")
    let ts0 ← ofOption row0.head? (.indexError "index 0 is out of bounds")
    let md := dset md "ts_start" (.q ts0)
    return md

/-- Read-only view of the filesystem / package environment the loaders
touch: existence checks for resolved resource paths, and the parsed
contents of YAML files by path (absent path = FileNotFoundError on open). -/
structure FS where
  pathExists : String → Bool
  yamlFiles : String → Option Attrs

/-- Models os.path.join for the forms the source uses (joining a
directory with a relative file name). -/
def os_path_join (a b : String) : String := a ++ "/" ++ b

/-- Embeds get_resource_path (src/aa_uv/utils.py): join the package root
with the relative path and return it.  When the path does not exist a
warning is merely logged (logging is out of scope here); no exception is
raised and the constructed path is returned regardless. -/
def get_resource_path (fs : FS) (pathRoot relativePath : String) : String :=
  let absPath := os_path_join pathRoot relativePath
  let _warned := ¬ fs.pathExists absPath
  absPath

/-- Embeds get_config_path (src/aa_uv/utils.py): RuntimeError when no
telescope name is given, otherwise the package-relative config path via
get_resource_path (which never fails). -/
def get_config_path (fs : FS) (pathRoot : String) (name : Option String) :
    Except PyErr String :=
  match name with
  | none => .error (.runtimeError "A path / telescope_name must be set.")
  | some n =>
      .ok (get_resource_path fs pathRoot ("config/" ++ n ++ "/uv_config.yaml"))

/-- Embeds load_yaml (src/aa_uv/utils.py): parse the YAML file at the
path; opening a missing file raises FileNotFoundError. -/
def load_yaml (fs : FS) (path : String) : Except PyErr Attrs :=
  match fs.yamlFiles path with
  | some d => .ok d
  | none => .error (.fileNotFoundError path)

/-- The config-resolution step of load_observation_metadata: an explicit
YAML path wins; otherwise the internal config registry is consulted for
the telescope name. -/
def resolve_yaml_config (fs : FS) (pathRoot : String)
    (yaml_config load_config : Option String) : Except PyErr String :=
  match yaml_config with
  | some y => pure y
  | none => get_config_path fs pathRoot load_config

/-- Embeds load_observation_metadata
(src/ska_ost_low_uv/io/to_uvx.py): read the raw container's metadata
first, then resolve the station YAML (explicit path, or by telescope name
through the internal registry — modelled by get_config_path of
src/aa_uv/utils.py, the registry helper present in the source tree), merge
the YAML dict over the raw metadata with Python dict.update semantics,
and rewrite the history / antenna-location / baseline-order /
station-config entries.  `dirnameAbspath` and `abspath` model the
environment-dependent os.path functions. -/
def load_observation_metadata (fs : FS) (pathRoot version : String)
    (dirnameAbspath abspath : String → String) (raw : RawFile)
    (yaml_config : Option String) (load_config : Option String) :
    Except PyErr Attrs := do
  let md ← get_hdf5_metadata raw
  let ycfg ← resolve_yaml_config fs pathRoot yaml_config load_config
  let mdYaml ← load_yaml fs ycfg
  let md := dupdate md mdYaml
  let md := dset md "history" (.s ("Created with ska_ost_low_uv " ++ version))
  let configAbspath := dirnameAbspath ycfg
  let alf ← dgetS md "antenna_locations_file"
  let md := dset md "antenna_locations_file" (.s (os_path_join configAbspath alf))
  let blf ← dgetS md "baseline_order_file"
  let md := dset md "baseline_order_file" (.s (os_path_join configAbspath blf))
  let md := dset md "station_config_file" (.s (abspath ycfg))
  return md

/-- An astropy EarthLocation built from a geocentric XYZ triple. -/
structure ELoc where
  x : ℚ
  y : ℚ
  z : ℚ
deriving DecidableEq, Repr

/-- The ICRS sky coordinate of the local zenith (altitude 90°, azimuth 0°)
at a given instant and observing location, as hdf5_to_uvx computes the
default phase center.  The astrometric conversion itself is outside the
source tree; a zenith coordinate is determined exactly by the instant and
the location, which is what this constructor records. -/
inductive ZenithSC where
  | zenithAt (t0 : ℚ) (loc : ELoc)
deriving DecidableEq, Repr

/-- A value of a provenance / context dictionary: a scalar (or small
array), or one nested mapping of scalars. -/
inductive PVal where
  | scalar (v : Val)
  | dict (d : Attrs)
deriving DecidableEq, Repr

/-- A provenance / context dictionary. -/
abbrev PDict := List (String × PVal)

/-- Embeds the time-axis derivation of hdf5_to_uvx
(src/ska_ost_low_uv/io/to_uvx.py):
np.arange(n_integrations) * tsamp + ts_start + tsamp / 2 — the half-sample
offset centers each timestamp on its integration window. -/
def time_axis_uvx (n_integrations : Nat) (tsamp ts_start : ℚ) : List ℚ :=
  (List.range n_integrations).map fun (i : Nat) =>
    (i : ℚ) * tsamp + ts_start + tsamp / 2

/-- Embeds the frequency-axis derivation of hdf5_to_uvx
(src/ska_ost_low_uv/io/to_uvx.py):
(np.arange(n_chans) + 1) * channel_spacing * channel_id. -/
def freq_axis_uvx (n_chans : Nat) (channel_spacing channel_id : ℚ) : List ℚ :=
  (List.range n_chans).map fun (j : Nat) =>
    ((j : ℚ) + 1) * channel_spacing * channel_id

/-- Embeds the time-axis derivation of the legacy hdf5_to_sdp_vis
(src/aavs_uv/sdp_uv.py): np.arange(n_integrations) * tsamp + ts_start —
with no half-sample centering term. -/
def time_axis_sdp (n_integrations : Nat) (tsamp ts_start : ℚ) : List ℚ :=
  (List.range n_integrations).map fun (i : Nat) => (i : ℚ) * tsamp + ts_start

/-- Embeds the frequency-axis derivation of the legacy hdf5_to_sdp_vis
(src/aavs_uv/sdp_uv.py):
(np.arange(n_chans) + 1) * channel_spacing * channel_id. -/
def freq_axis_sdp (n_chans : Nat) (channel_spacing channel_id : ℚ) : List ℚ :=
  (List.range n_chans).map fun (j : Nat) =>
    ((j : ℚ) + 1) * channel_spacing * channel_id

/-- The environment of hdf5_to_uvx: the filesystem / package state and the
collaborator functions that live outside src/ (the UVX datamodel builders,
the platform-YAML reader, pandas CSV parsing, version introspection).
They are opaque parameters here — hdf5_to_uvx only calls them — with type
parameters `P` (parsed antenna-position table), `A` (antenna data array)
and `D` (visibility data array). -/
structure UvxEnv (P A D : Type) where
  fs : FS
  pathRoot : String
  version : String
  dirnameAbspath : String → String
  abspath : String → String
  slfpy : String → ELoc × P
  readCsv : String → Option P
  cada : P → ELoc → ℚ → A
  cva : VisPayload → List ℚ → List ℚ → ELoc → Bool → Bool → D
  softwareVersions : Attrs
  emptyProvenance : PDict
  emptyContext : PDict

/-- Everything hdf5_to_uvx computes before the `if load_data` branch that
builds the visibility array (metadata, payload handle, location, time and
frequency axes, antenna data array), in source order. -/
structure UvxPre (A : Type) where
  md : Attrs
  payload : VisPayload
  eloc : ELoc
  t : List ℚ
  f : List ℚ
  antennas : A
deriving Repr

/-- The fields hdf5_to_uvx computes after the visibility array is built
(attribute dictionaries, provenance, context, phase center, name); none of
them reads the visibility array. -/
structure UvxRest where
  dataAttrs : Attrs
  timeAttrs : Attrs
  freqAttrs : Attrs
  provenance : PDict
  context : PDict
  phase_center : ZenithSC
  name : String
deriving DecidableEq, Repr

/-- The UVX object returned by hdf5_to_uvx, as far as this embedding
tracks it: the xarray attribute dictionaries that the source attaches to
the data array and its coordinates are explicit fields here because the
visibility-array type `D` is opaque. -/
structure UVXResult (A D : Type) where
  name : String
  antennas : A
  context : PDict
  data : D
  dataAttrs : Attrs
  timeAttrs : Attrs
  freqAttrs : Attrs
  timestamps : List ℚ
  frequency : List ℚ
  origin : ELoc
  phase_center : ZenithSC
  provenance : PDict
deriving Repr

/-- The observer-location / antenna-position step of hdf5_to_uvx:
platform-YAML mode delegates to station_location_from_platform_yaml,
otherwise the location comes from the telescope ECEF triple and the
antenna positions from the antenna-locations CSV. -/
def uvx_location_and_antpos (env : UvxEnv P A D) (md : Attrs)
    (from_platform_yaml : Bool) : Except PyErr (ELoc × P) :=
  if from_platform_yaml then do
    let alf ← dgetS md "antenna_locations_file"
    pure (env.slfpy alf)
  else do
    let ecefX ← dgetQ md "telescope_ECEF_X"
    let ecefY ← dgetQ md "telescope_ECEF_Y"
    let ecefZ ← dgetQ md "telescope_ECEF_Z"
    let eloc : ELoc := ⟨ecefX, ecefY, ecefZ⟩
    let alf ← dgetS md "antenna_locations_file"
    let antpos ← ofOption (env.readCsv alf) (.fileNotFoundError alf)
    pure (eloc, antpos)

/-- Embeds the first half of hdf5_to_uvx
(src/ska_ost_low_uv/io/to_uvx.py), through the creation of the antenna
data array: load merged observation metadata, take the payload handle,
derive the observer location and antenna positions (platform-YAML mode or
ECEF-triple + CSV mode), build the time and frequency axes, and call
create_antenna_data_array with the receptor rotation angle. -/
def hdf5_to_uvx_pre (env : UvxEnv P A D) (raw : RawFile)
    (telescope_name yaml_config : Option String)
    (from_platform_yaml : Bool) : Except PyErr (UvxPre A) := do
  let md ← load_observation_metadata env.fs env.pathRoot env.version
    env.dirnameAbspath env.abspath raw yaml_config telescope_name
  let corr ← ofOption raw.corr (.keyError "correlation_matrix")
  let payload := corr.data
  let (eloc, antpos) ← uvx_location_and_antpos env md from_platform_yaml
  let nInt ← dgetI md "n_integrations"
  let tsamp ← dgetQ md "tsamp"
  let tsStart ← dgetQ md "ts_start"
  let t := time_axis_uvx nInt.toNat tsamp tsStart
  let nChans ← dgetI md "n_chans"
  let spacing ← dgetQ md "channel_spacing"
  let chId ← dgetQ md "channel_id"
  let f := freq_axis_uvx nChans.toNat spacing chId
  let rotAng ← dgetQ md "receptor_angle"
  let antennas := env.cada antpos eloc rotAng
  return { md := md, payload := payload, eloc := eloc, t := t, f := f,
           antennas := antennas }

/-- Embeds the `if load_data` branch of hdf5_to_uvx: with load_data the
configured conjugate_hdf5 / transpose_hdf5 policy flags are read from the
merged metadata and passed to create_visibility_array; without it the
array is built with conj=False, transpose=False and the flags are never
read. -/
def hdf5_to_uvx_mk_data (env : UvxEnv P A D) (p : UvxPre A)
    (load_data : Bool) : Except PyErr D :=
  if load_data then do
    let conjFlag ← dgetB p.md "conjugate_hdf5"
    let transposeFlag ← dgetB p.md "transpose_hdf5"
    pure (env.cva p.payload p.f p.t p.eloc conjFlag transposeFlag)
  else
    pure (env.cva p.payload p.f p.t p.eloc false false)

/-- Embeds the second half of hdf5_to_uvx: the unit tag and the
time / frequency coordinate attributes (with the oversampled flag when
channel_width > channel_spacing), the provenance dictionary (creation
info, software versions, input metadata, optional observation_info with
its KeyError fallback), the zenith phase center at the first timestamp,
and the context dictionary.  None of these reads the visibility array. -/
def hdf5_to_uvx_post (env : UvxEnv P A D) (raw : RawFile) (fn_data : String)
    (provenance context : Option PDict) (p : UvxPre A) :
    Except PyErr UvxRest := do
  let visUnits ← dget p.md "vis_units"
  let dataAttrs : Attrs := [("unit", visUnits)]
  let tsampV ← dget p.md "tsamp"
  let timeAttrs : Attrs :=
    [("resolution", tsampV), ("resolution_unit", .s "s")]
  let spacingV ← dget p.md "channel_spacing"
  let widthV ← dget p.md "channel_width"
  let chIdV ← dget p.md "channel_id"
  let freqAttrs : Attrs :=
    [("resolution", spacingV), ("channel_spacing", spacingV),
     ("channel_bandwidth", widthV), ("channel_id", chIdV),
     ("resolution_unit", .s "Hz")]
  let widthQ ← valQ widthV
  let spacingQ ← valQ spacingV
  let freqAttrs := if widthQ > spacingQ then
      dset freqAttrs "oversampled" (.b true)
    else freqAttrs
  let prov0 := match provenance with
    | none => env.emptyProvenance
    | some pr => pr
  let stationConfigFile ← dgetS p.md "station_config_file"
  let prov := dupdate prov0
    [("input_files", .dict
        [("data_filename", .s (env.abspath fn_data)),
         ("config_filename", .s stationConfigFile)]),
     ("ska_ost_low_uv_config", .dict env.softwareVersions),
     ("input_metadata", .dict p.md)]
  let prov := match raw.obsInfo with
    | none => prov
    | some oi =>
        match oi.lookup "description", oi.lookup "firmware_version",
              oi.lookup "software_version", oi.lookup "station_config" with
        | some de, some fw, some sw, some sc =>
            dset prov "station_config" (.dict
              [("observation_description", de),
               ("tpm_firmware_version", fw),
               ("daq_software_version", sw),
               ("station_config_yaml", sc)])
        | _, _, _, _ => prov
  let t0 ← ofOption p.t.head? (.indexError "index 0 is out of bounds")
  let zenSc : ZenithSC := .zenithAt t0 p.eloc
  let contextDict := match context with
    | none => env.emptyContext
    | some c => c
  let name ← dgetS p.md "telescope_name"
  return { dataAttrs := dataAttrs, timeAttrs := timeAttrs,
           freqAttrs := freqAttrs, provenance := prov,
           context := contextDict, phase_center := zenSc, name := name }

/-- Assemble the UVX object from the three stages. -/
def hdf5_to_uvx_build (p : UvxPre A) (rest : UvxRest) (d : D) :
    UVXResult A D :=
  { name := rest.name, antennas := p.antennas, context := rest.context,
    data := d, dataAttrs := rest.dataAttrs, timeAttrs := rest.timeAttrs,
    freqAttrs := rest.freqAttrs, timestamps := p.t, frequency := p.f,
    origin := p.eloc, phase_center := rest.phase_center,
    provenance := rest.provenance }

/-- Embeds hdf5_to_uvx (src/ska_ost_low_uv/io/to_uvx.py), staged in source
order: the shared prefix, the load_data-dependent visibility-array build,
then the attribute / provenance / phase-center construction (which never
reads the visibility array, so it is threaded past unchanged). -/
def hdf5_to_uvx (env : UvxEnv P A D) (fn_data : String) (raw : RawFile)
    (telescope_name yaml_config : Option String)
    (from_platform_yaml : Bool) (context provenance : Option PDict)
    (load_data : Bool) : Except PyErr (UVXResult A D) := do
  let p ← hdf5_to_uvx_pre env raw telescope_name yaml_config from_platform_yaml
  let d ← hdf5_to_uvx_mk_data env p load_data
  (hdf5_to_uvx_post env raw fn_data provenance context p).map
    (fun rest => hdf5_to_uvx_build p rest d)

/-! ## The uv5 container codec (src/aavs_uv/io/aavs_uv5.py)

The UV datamodel object is embedded field by field: numpy/xarray arrays
become lists of rationals / ints / strings, every xarray attrs dict
becomes an association list.  Fixed-width byte encoding of text arrays on
write and decoding on read is modelled as the identity on strings (the
ASCII-lossless path).  The uv5 HDF5 file has a fixed schema, so it is
embedded as a record with one field per dataset / attribute set rather
than as a generic tree. -/

/-- A 1-D float coordinate / attribute array with its attrs dict. -/
structure CoordQ where
  values : List ℚ
  attrs : Attrs
deriving DecidableEq, Repr

/-- A 1-D integer coordinate / attribute array with its attrs dict. -/
structure CoordI where
  values : List Int
  attrs : Attrs
deriving DecidableEq, Repr

/-- A 1-D string coordinate / attribute array with its attrs dict. -/
structure CoordS where
  values : List String
  attrs : Attrs
deriving DecidableEq, Repr

/-- A 2-D float array (antenna × spatial) with its attrs dict. -/
structure Arr2Q where
  values : List (List ℚ)
  attrs : Attrs
deriving DecidableEq, Repr

/-- A value held in an xarray attrs dict: a plain scalar / small array, or
a whole labelled array (the antenna attribute table stores DataArrays in
the Dataset attrs, and uv5_to_uv puts those same arrays into the
visibility DataArray attrs). -/
inductive XVal where
  | av (v : Val)
  | xs (a : CoordS)
  | xi (a : CoordI)
  | xq (a : CoordQ)
deriving DecidableEq, Repr

/-- An xarray attrs dict that may contain labelled arrays. -/
abbrev XAttrs := List (String × XVal)

/-- Writing an xarray attrs value as an HDF5 attribute: plain values pass
through; labelled arrays collapse to their raw values (string arrays via
the bytes cast of _str2bytes / _set_attrs). -/
def xvalToVal : XVal → Val
  | .av v => v
  | .xs a => .sArr a.values
  | .xi a => .iArr a.values
  | .xq a => .qArr a.values

/-- The `time` coordinate bundle of the visibility DataArray: the three
sub-coordinates (each value array carrying its own attrs) and the attrs of
the time axis itself. -/
structure TimeCoordM where
  mjd : CoordQ
  lst : CoordQ
  unix : CoordQ
  attrs : Attrs
deriving DecidableEq, Repr

/-- The `baseline` coordinate bundle: ant1 / ant2 index arrays and the
attrs of the baseline axis. -/
structure BaselineCoordM where
  ant1 : CoordI
  ant2 : CoordI
  attrs : Attrs
deriving DecidableEq, Repr

/-- The visibility DataArray: a (time, frequency, baseline, polarization)
complex tensor, its attrs dict, and its four coordinate bundles. -/
structure DataArrayM where
  values : VisPayload
  attrs : XAttrs
  time : TimeCoordM
  baseline : BaselineCoordM
  frequency : CoordQ
  polarization : CoordS
deriving DecidableEq, Repr

/-- The antennas Dataset: ENU and ECEF position arrays, the antenna /
spatial coordinates, and the four attribute arrays stored in the Dataset
attrs (identifier, flags, and the array origin in geocentric and geodetic
form). -/
structure AntennasM where
  enu : Arr2Q
  ecef : Arr2Q
  antenna : CoordI
  spatial : CoordS
  identifier : CoordS
  flags : CoordI
  array_origin_geocentric : CoordQ
  array_origin_geodetic : CoordQ
deriving DecidableEq, Repr

/-- The phase center SkyCoord in ICRS: right-ascension and declination
angle lists in degrees (the codec converts RA to hourangle on write and
back on read), plus whether the coordinate is scalar (a single sky
position rather than a length-1 array of positions). -/
structure PhaseCenterM where
  ra_deg : List ℚ
  dec_deg : List ℚ
  isscalar : Bool
deriving DecidableEq, Repr

/-- The UV datamodel object as the codec sees it.  (The timestamps and
origin members of the Python dataclass are derived on read from the unix
time coordinate and the geocentric array origin, so they are not separate
fields here.) -/
structure UVM where
  name : String
  data : DataArrayM
  antennas : AntennasM
  phase_center : PhaseCenterM
  provenance : PDict
  context : PDict
deriving DecidableEq, Repr

/-- The uv5 HDF5 container, one field per dataset / attribute set of the
fixed schema that uv_to_uv5 writes. -/
structure UV5File where
  classAttr : String
  version : String
  name : String
  vis_data : VisPayload
  vis_data_attrs : Attrs
  time_group_attrs : Attrs
  time_mjd : List ℚ
  time_mjd_attrs : Attrs
  time_lst : List ℚ
  time_lst_attrs : Attrs
  time_unix : List ℚ
  time_unix_attrs : Attrs
  bl_group_attrs : Attrs
  bl_ant1 : List Int
  bl_ant1_attrs : Attrs
  bl_ant2 : List Int
  bl_ant2_attrs : Attrs
  pol_values : List String
  pol_attrs : Attrs
  freq_values : List ℚ
  freq_attrs : Attrs
  vis_dims_attrs : Attrs
  ant_enu : List (List ℚ)
  ant_enu_attrs : Attrs
  ant_ecef : List (List ℚ)
  ant_ecef_attrs : Attrs
  ant_coord_antenna : List Int
  ant_coord_antenna_attrs : Attrs
  ant_coord_spatial : List String
  ant_coord_spatial_attrs : Attrs
  ant_identifier : List String
  ant_identifier_attrs : Attrs
  ant_flags : List Int
  ant_flags_attrs : Attrs
  ant_origin_geocentric : List ℚ
  ant_origin_geocentric_attrs : Attrs
  ant_origin_geodetic : List ℚ
  ant_origin_geodetic_attrs : Attrs
  ant_dims_attrs : Attrs
  pc_ra : List ℚ
  pc_ra_attrs : Attrs
  pc_dec : List ℚ
  pc_dec_attrs : Attrs
  prov_attrs : Attrs
  prov_groups : List (String × Attrs)
  context_attrs : Attrs
  context_groups : List (String × Attrs)
  group_descriptions : Attrs
deriving DecidableEq, Repr

/-- The write-side attribute copy `_set_attrs` of uv_to_uv5: assign each
item of an attrs dict into the (fresh) HDF5 attribute set. -/
def writeAttrs (a : Attrs) : Attrs := dnorm a

/-- The write-side attribute copy for xarray attrs that may hold labelled
arrays (the `_str2bytes` / TypeError-fallback path flattens them to raw
value arrays). -/
def writeXAttrs (a : XAttrs) : Attrs :=
  dnorm (a.map fun kv => (kv.1, xvalToVal kv.2))

/-- Write one provenance-style dict: scalar items become group attributes
(in item order), dict items become sub-groups carrying their items as
attributes. -/
def writeProvAttrs (d : PDict) : Attrs :=
  d.filterMap fun kv =>
    match kv.2 with
    | .scalar v => some (kv.1, v)
    | .dict _ => none

/-- Write the sub-groups of a provenance-style dict. -/
def writeProvGroups (d : PDict) : List (String × Attrs) :=
  d.filterMap fun kv =>
    match kv.2 with
    | .scalar _ => none
    | .dict dd => some (kv.1, writeAttrs dd)

/-- Embeds uv_to_uv5 (src/aavs_uv/io/aavs_uv5.py): serialize a UV object
into the uv5 container, following the write order of the source (dataset
values and attrs first, then the added dims / description attributes). -/
def uv_to_uv5 (version : String) (uv : UVM) : UV5File :=
  let dims : List String := ["time", "frequency", "baseline", "polarization"]
  { classAttr := "AAVS_UV"
    version := version
    name := uv.name
    vis_data := uv.data.values
    vis_data_attrs := dset (writeXAttrs uv.data.attrs) "dims" (.sArr dims)
    time_group_attrs :=
      dset (writeAttrs uv.data.time.attrs) "description" (.s "Time coordinate")
    time_mjd := uv.data.time.mjd.values
    time_mjd_attrs :=
      dset (writeAttrs uv.data.time.mjd.attrs) "description"
        (.s "Modified Julian Date")
    time_lst := uv.data.time.lst.values
    time_lst_attrs :=
      dset (writeAttrs uv.data.time.lst.attrs) "description"
        (.s "Local apparent sidereal time")
    time_unix := uv.data.time.unix.values
    time_unix_attrs :=
      dset (writeAttrs uv.data.time.unix.attrs) "description"
        (.s "Unix timestamp (seconds since 1970-01-01 00:00:00 UTC)")
    bl_group_attrs :=
      [("description",
        .s "Antenna baseline coordinate. UVW defined as ant2 - ant1.")]
    bl_ant1 := uv.data.baseline.ant1.values
    bl_ant1_attrs :=
      dset (writeAttrs uv.data.baseline.ant1.attrs) "description"
        (.s "Baseline antenna 1 index")
    bl_ant2 := uv.data.baseline.ant2.values
    bl_ant2_attrs :=
      dset (writeAttrs uv.data.baseline.ant2.attrs) "description"
        (.s "Baseline antenna 2 index")
    pol_values := uv.data.polarization.values
    pol_attrs :=
      dset (writeAttrs uv.data.polarization.attrs) "description"
        (.s "Polarization products coordinate")
    freq_values := uv.data.frequency.values
    freq_attrs := writeAttrs uv.data.frequency.attrs
    vis_dims_attrs :=
      [("time", .i (uv.data.values.length : Int)),
       ("frequency", .i ((uv.data.values.headD []).length : Int)),
       ("baseline", .i (((uv.data.values.headD []).headD []).length : Int)),
       ("polarization",
        .i ((((uv.data.values.headD []).headD []).headD []).length : Int))]
    ant_enu := uv.antennas.enu.values
    ant_enu_attrs :=
      dset (writeAttrs uv.antennas.enu.attrs) "dims"
        (.sArr ["antenna", "spatial"])
    ant_ecef := uv.antennas.ecef.values
    ant_ecef_attrs :=
      dset (writeAttrs uv.antennas.ecef.attrs) "dims"
        (.sArr ["antenna", "spatial"])
    ant_coord_antenna := uv.antennas.antenna.values
    ant_coord_antenna_attrs :=
      dset (writeAttrs uv.antennas.antenna.attrs) "description"
        (.s "Antenna index")
    ant_coord_spatial := uv.antennas.spatial.values
    ant_coord_spatial_attrs :=
      dset (writeAttrs uv.antennas.spatial.attrs) "description"
        (.s "Spatial location (XYZ)")
    ant_identifier := uv.antennas.identifier.values
    ant_identifier_attrs := writeAttrs uv.antennas.identifier.attrs
    ant_flags := uv.antennas.flags.values
    ant_flags_attrs := writeAttrs uv.antennas.flags.attrs
    ant_origin_geocentric := uv.antennas.array_origin_geocentric.values
    ant_origin_geocentric_attrs :=
      writeAttrs uv.antennas.array_origin_geocentric.attrs
    ant_origin_geodetic := uv.antennas.array_origin_geodetic.values
    ant_origin_geodetic_attrs :=
      writeAttrs uv.antennas.array_origin_geodetic.attrs
    ant_dims_attrs :=
      [("antenna", .i (uv.antennas.antenna.values.length : Int)),
       ("spatial", .i (uv.antennas.spatial.values.length : Int))]
    pc_ra := uv.phase_center.ra_deg.map (fun v => v / 15)
    pc_ra_attrs :=
      [("unit", .s "hourangle"), ("description", .s "Right Ascension (J2000)")]
    pc_dec := uv.phase_center.dec_deg
    pc_dec_attrs :=
      [("unit", .s "deg"), ("description", .s "Declination (J2000)")]
    prov_attrs := writeProvAttrs uv.provenance
    prov_groups := writeProvGroups uv.provenance
    context_attrs := writeProvAttrs uv.context
    context_groups := writeProvGroups uv.context
    group_descriptions :=
      [("antennas", .s "Antenna array spatial coordinate details."),
       ("phase_center", .s "Array phase center / pointing information."),
       ("provenance", .s "History and data provenance."),
       ("context", .s "Contextual information about observation."),
       ("visibilities", .s "Visibility data. (inter-antenna cross-correlations).")] }

/-- Angle values as an astropy SkyCoord stores them, converted to degrees
from the unit tag recorded in the file (the codec writes 'hourangle' for
RA and 'deg' for declination). -/
def angle_to_deg (vals : List ℚ) (unit : Val) : Except PyErr (List ℚ) :=
  match unit with
  | .s "hourangle" => .ok (vals.map fun v => v * 15)
  | .s "deg" => .ok vals
  | _ => .error (.valueError "unrecognized angle unit")

/-- Read one provenance-style dict: the group's own attributes as scalar
items first (Python dict(attrs.items())), then one dict item per
sub-group, assigned over it. -/
def readProv (a : Attrs) (groups : List (String × Attrs)) : PDict :=
  groups.foldl (fun acc kg => dset acc kg.1 (.dict (dnorm kg.2)))
    ((dnorm a).map fun kv => (kv.1, PVal.scalar kv.2))

/-- Embeds uv5_to_uv (src/aavs_uv/io/aavs_uv5.py): deserialize a uv5
container back into a UV object, keeping the reader's quirks: the
visibility DataArray is constructed with `attrs=attrs`, the antenna
attribute dictionary built a few lines earlier — not the attrs stored on
the visibilities/data dataset; the time / baseline sub-coordinates come
back from plain MultiIndex arrays with empty attrs; the coordinate-copy
loop then installs the time / baseline / polarization / frequency group
or dataset attrs; the geodetic-origin 'unit' attribute is re-read (KeyError
when absent), as is the geocentric 'unit' needed to rebuild the origin
EarthLocation. -/
def uv5_to_uv (h : UV5File) : Except PyErr UVM := do
  let identifier : CoordS := ⟨h.ant_identifier, dnorm h.ant_identifier_attrs⟩
  let flags : CoordI := ⟨h.ant_flags, dnorm h.ant_flags_attrs⟩
  let geocentric : CoordQ :=
    ⟨h.ant_origin_geocentric, dnorm h.ant_origin_geocentric_attrs⟩
  let geodetic0 : CoordQ :=
    ⟨h.ant_origin_geodetic, dnorm h.ant_origin_geodetic_attrs⟩
  -- bytes → str fixup of the geodetic unit attribute (identity on the
  -- value in this model, KeyError when the attribute is absent)
  let geodeticUnit ← dget geodetic0.attrs "unit"
  let geodetic : CoordQ :=
    ⟨geodetic0.values, dset geodetic0.attrs "unit" geodeticUnit⟩
  let antennas : AntennasM :=
    { enu := ⟨h.ant_enu, dnorm h.ant_enu_attrs⟩
      ecef := ⟨h.ant_ecef, dnorm h.ant_ecef_attrs⟩
      antenna := ⟨h.ant_coord_antenna, []⟩
      spatial := ⟨h.ant_coord_spatial, []⟩
      identifier := identifier
      flags := flags
      array_origin_geocentric := geocentric
      array_origin_geodetic := geodetic }
  -- the dict named `attrs` in the source at this point: the antenna
  -- attribute arrays — which the reader then passes to the visibility
  -- DataArray constructor as its attrs
  let antAttrs : XAttrs :=
    [("identifier", .xs identifier), ("flags", .xi flags),
     ("array_origin_geocentric", .xq geocentric),
     ("array_origin_geodetic", .xq geodetic)]
  let data : DataArrayM :=
    { values := h.vis_data
      attrs := antAttrs
      time :=
        { mjd := ⟨h.time_mjd, []⟩, lst := ⟨h.time_lst, []⟩,
          unix := ⟨h.time_unix, []⟩,
          attrs := dnorm h.time_group_attrs }
      baseline :=
        { ant1 := ⟨h.bl_ant1, []⟩, ant2 := ⟨h.bl_ant2, []⟩,
          attrs := dnorm h.bl_group_attrs }
      frequency := ⟨h.freq_values, dupdate (dnorm h.freq_attrs) h.freq_attrs⟩
      polarization := ⟨h.pol_values, dnorm h.pol_attrs⟩ }
  let raUnit ← dget (dnorm h.pc_ra_attrs) "unit"
  let decUnit ← dget (dnorm h.pc_dec_attrs) "unit"
  let raDeg ← angle_to_deg h.pc_ra raUnit
  let decDeg ← angle_to_deg h.pc_dec decUnit
  let phaseCenter : PhaseCenterM :=
    { ra_deg := raDeg, dec_deg := decDeg, isscalar := false }
  let provenance := readProv h.prov_attrs h.prov_groups
  let context := readProv h.context_attrs h.context_groups
  -- rebuilding the origin EarthLocation reads the geocentric 'unit'
  -- attribute (KeyError when absent); the resulting location and the
  -- timestamps derived from the unix coordinate are not separate fields
  let _originUnit ← dget geocentric.attrs "unit"
  return { name := h.name, data := data, antennas := antennas,
           phase_center := phaseCenter, provenance := provenance,
           context := context }

/-! ## The SDP exporters (src/aa_uv/io/to_sdp.py)

hdf5_to_sdp_vis first builds a UVX object via hdf5_to_uvx and then maps
it to an SDP Visibility; the mapping stage is embedded here with the UVX
fields it reads as its input record.  The UVW / phase-correction
geometry helpers (aa_uv.uvw_utils, outside src/) are opaque function
parameters.  Tensors are embedded as index functions. -/

/-- A (time, baseline, 3) UVW tensor. -/
abbrev Tensor3 := Nat → Nat → Fin 3 → ℚ

/-- A (time, baseline, frequency, polarization) complex tensor. -/
abbrev Tensor4 := Nat → Nat → Nat → Nat → QC

/-- A phase center as the exporters pass it: the UVX zenith coordinate,
or an RA/Dec pair in degrees from a pyuvdata phase-center catalog. -/
inductive SkyC where
  | zenith (z : ZenithSC)
  | radec (ra_deg dec_deg : ℚ)
deriving Repr

/-- The `stations` argument of Configuration.constructor: the hdf5 path
passes a list of station-name strings, the pyuvdata path passes the
station count. -/
inductive StationsArg where
  | count (n : Nat)
  | names (l : List String)
deriving DecidableEq, Repr

/-- The ska-sdp Configuration fields the exporters fill. -/
structure SDPConfig where
  name : String
  names : List String
  stations : StationsArg
  location : ELoc
  xyz : List (List ℚ)
  diameter : ℚ
  mount : String
deriving DecidableEq, Repr

/-- The integration_time argument: the hdf5 path passes an array, the
pyuvdata path a scalar (single-time case) or nothing. -/
inductive TIntArg where
  | arr (l : List ℚ)
  | scalar (q : ℚ)
  | noneVal
deriving DecidableEq, Repr

/-- The SDP Visibility as the exporters construct it. -/
structure SDPVis where
  uvw : Tensor3
  time : List ℚ
  frequency : List ℚ
  vis : Tensor4
  weight : Nat → Nat → Nat → Nat → ℚ
  flags : Nat → Nat → Nat → Nat → Int
  baselines : List (Nat × Nat)
  integrationTime : TIntArg
  channelBandwidth : List ℚ
  polarisationFrame : String
  source : String
  scanId : Int
  scanIntent : String
  execblockId : String
  meta : Attrs
  phasecentre : SkyC
  configuration : SDPConfig

/-- The fields of the UVX object that the hdf5_to_sdp_vis mapping stage
reads (produced by hdf5_to_uvx; the visibility tensor is indexed in its
canonical (time, frequency, baseline, polarization) order). -/
structure UVXObjSdp where
  md : Attrs
  enu : List (List ℚ)
  ecef : List (List ℚ)
  identifiers : List String
  origin : ELoc
  ant1 : List Nat
  ant2 : List Nat
  mjd : List ℚ
  frequency : List ℚ
  freqAttrs : Attrs
  visData : Tensor4
  phase_center : ZenithSC

/-- Embeds the UVX → SDP Visibility mapping stage of hdf5_to_sdp_vis
(src/aa_uv/io/to_sdp.py): build the Configuration and baseline index,
integration times and channel bandwidths, the zenith source name, the
UVW tensor via calc_uvw negated wholesale when flip_uvw is set, and the
visibility tensor transposed to (time, baseline, frequency, polarization)
with the zenith-tracking phase correction multiplied in when
apply_phasing is set. -/
def hdf5_to_sdp_vis_tail (calcUvw : UVXObjSdp → Tensor3)
    (calcPhs : UVXObjSdp → (Nat → Nat → Nat → QC))
    (scan_id : Int) (scan_intent execblock_id : String)
    (flip_uvw apply_phasing : Bool) (uv : UVXObjSdp) :
    Except PyErr SDPVis := do
  let telName ← dgetS uv.md "telescope_name"
  let nAnt ← dgetI uv.md "n_antennas"
  let config : SDPConfig :=
    { name := telName, names := uv.identifiers,
      stations := .names ((List.range nAnt.toNat).map toString),
      location := uv.origin, xyz := uv.ecef, diameter := 1,
      mount := "altaz" }
  let baselines := uv.ant1.zip uv.ant2
  let tsamp ← dgetQ uv.md "tsamp"
  let tInt := uv.mjd.map fun _ => tsamp
  let cbw ← valQ (← dget uv.freqAttrs "channel_bandwidth")
  let fbw := uv.frequency.map fun _ => cbw
  let mjd0 ← ofOption uv.mjd.head? (.indexError "index 0 is out of bounds")
  let sourceName := "Zenith_at_mjd_" ++ toString mjd0
  let uvw0 := calcUvw uv
  let uvw := if flip_uvw then (fun t b k => -(uvw0 t b k)) else uvw0
  let visT : Tensor4 := fun t bl f p => uv.visData t f bl p
  let phs := calcPhs uv
  let visData :=
    if apply_phasing then
      (fun t bl f p => cmul (visT t bl f p) (phs t bl f))
    else visT
  return { uvw := uvw, time := uv.mjd.map (fun m => m * 86400),
           frequency := uv.frequency, vis := visData,
           weight := fun _ _ _ _ => 1, flags := fun _ _ _ _ => 0,
           baselines := baselines, integrationTime := .arr tInt,
           channelBandwidth := fbw, polarisationFrame := "linear",
           source := sourceName, scanId := scan_id,
           scanIntent := scan_intent, execblockId := execblock_id,
           meta := uv.md, phasecentre := .zenith uv.phase_center,
           configuration := config }

/-- One entry of a pyuvdata phase-center catalog. -/
structure PCCat where
  cat_name : String
  cat_lon : ℚ
  cat_lat : ℚ
deriving DecidableEq, Repr

/-- The fields of a pyuvdata UVData object that uvdata_to_sdp_vis reads.
The visibility samples are the (Nblts, Nfreqs, Npols) data_array in
row-major flattened form, and uvw_array is the (Nblts, 3) array as a list
of rows. -/
structure UVDataObj where
  telescope_location : List ℚ
  telescope_name : String
  antenna_names : List String
  antenna_numbers : List Nat
  antenna_positions : List (List ℚ)
  time_array : List ℚ
  nbls : Nat
  ntimes : Nat
  freq_array : List (List ℚ)
  channel_width : ℚ
  phase_center_catalog : List (Nat × PCCat)
  phase_center_app_ra_degrees : List ℚ
  phase_center_app_dec_degrees : List ℚ
  integration_time : List ℚ
  uvw_array : List (List ℚ)
  data_array : List QC
  ant_1_array : List Nat
  ant_2_array : List Nat

/-- Python extended slicing l[::step] (ValueError when step is zero). -/
def sliceStep (step : Nat) (l : List α) : List α :=
  (l.enum.filter fun p => p.1 % step = 0).map Prod.snd

/-- A bare `if cond: raise E` statement. -/
def raiseIf (c : Prop) [Decidable c] (e : PyErr) : Except PyErr PUnit :=
  if c then .error e else .ok PUnit.unit

/-- EarthLocation.from_geocentric(*xyz): star-unpacking anything but a
three-component sequence is a TypeError. -/
def fromGeocentric : List ℚ → Except PyErr ELoc
  | [x, y, z] => .ok ⟨x, y, z⟩
  | _ => .error (.typeError "from_geocentric takes three components")

/-- The polarization remap [0, 2, 3, 1] applied by uvdata_to_sdp_vis
(XX, YY, XY, YX → XX, XY, YX, YY): output index j reads input index
[0, 2, 3, 1][j]. -/
def polRemap : Nat → Nat
  | 0 => 0
  | 1 => 2
  | 2 => 3
  | 3 => 1
  | n => n

/-- sorted(catalog.keys())[0]: IndexError on an empty catalog, else the
least key. -/
def sorted_first_key (keys : List Nat) : Except PyErr Nat :=
  match keys with
  | [] => .error (.indexError "index 0 is out of bounds")
  | k0 :: rest => .ok (rest.foldl Nat.min k0)

/-- integration_time[0] if Ntimes == 1 else None. -/
def t_int_arg (ntimes : Nat) (integration_time : List ℚ) :
    Except PyErr TIntArg :=
  if ntimes = 1 then do
    let it0 ← ofOption integration_time.head?
      (.indexError "index 0 is out of bounds")
    pure (TIntArg.scalar it0)
  else
    pure TIntArg.noneVal

/-- Embeds uvdata_to_sdp_vis (src/aa_uv/io/to_sdp.py) in source order:
Configuration from the UVData telescope fields, the strided time slice,
the first spectral window's frequencies, the guard raising
NotImplementedError for more than one spectral window, phase-center
bookkeeping, then the UVW / time / visibility reshapes (UVW negated
wholesale when flip_uvw is set, polarizations remapped, optional
conjugation) and the Visibility construction.  `sidereal` abstracts the
astropy apparent-sidereal-time computation (its results feed only unused
local variables). -/
def uvdata_to_sdp_vis (sidereal : List ℚ → List ℚ) (scan_id : Int)
    (scan_intent execblock_id : String) (conj flip_uvw : Bool)
    (uv : UVDataObj) : Except PyErr SDPVis := do
  let eloc ← fromGeocentric uv.telescope_location
  let config : SDPConfig :=
    { name := uv.telescope_name, names := uv.antenna_names,
      stations := .count uv.antenna_numbers.length, location := eloc,
      xyz := uv.antenna_positions, diameter := 1, mount := "altaz" }
  let _ ← raiseIf (uv.nbls = 0) (.valueError "slice step cannot be zero")
  let t := sliceStep uv.nbls uv.time_array
  let _tLst := sidereal t
  let t0jd ← ofOption t.head? (.indexError "index 0 is out of bounds")
  let _t0 := round (t0jd - 4800001 / 2)  -- np.round(t[0].mjd), mjd = jd − 2400000.5
  let fC ← ofOption uv.freq_array.head? (.indexError "index 0 is out of bounds")
  let fBw := fC.map fun _ => uv.channel_width
  let _ ← raiseIf (uv.freq_array.length > 1)
    (.notImplementedError "Only length-1 frequency arrays supported at present.")
  -- sorted(uv.phase_center_catalog.keys())[0] and the catalog lookup
  let pcKeys := uv.phase_center_catalog.map Prod.fst
  let pcId ← sorted_first_key pcKeys
  let pcd ← ofOption (uv.phase_center_catalog.lookup pcId) (.keyError "phase_center_catalog")
  let _pcName := pcd.cat_name  -- feeds only unused locals (pc_sc, pc_hourangle)
  let tInt ← t_int_arg uv.ntimes uv.integration_time
  let raApp ← ofOption uv.phase_center_app_ra_degrees.head?
    (.indexError "index 0 is out of bounds")
  let decApp ← ofOption uv.phase_center_app_dec_degrees.head?
    (.indexError "index 0 is out of bounds")
  let pc : SkyC := .radec raApp decApp
  let _ ← raiseIf (uv.uvw_array.length ≠ uv.ntimes * uv.nbls)
    (.valueError "cannot reshape uvw array")
  let uvw0 : Tensor3 := fun t b k =>
    ((uv.uvw_array.getD (t * uv.nbls + b) []).getD (k : Nat) 0)
  let uvw := if flip_uvw then (fun t b k => -(uvw0 t b k)) else uvw0
  let _ ← raiseIf (uv.time_array.length ≠ uv.ntimes * uv.nbls)
    (.valueError "cannot reshape time array")
  let tRe := (List.range uv.ntimes).map fun ti => uv.time_array.getD (ti * uv.nbls) 0
  let _tLst2 := sidereal tRe
  let _ ← raiseIf (uv.data_array.length ≠ uv.ntimes * uv.nbls * 4)
    (.valueError "cannot reshape visibility array")
  let vis0 : Tensor4 := fun t b f p =>
    uv.data_array.getD (((t * uv.nbls + b) * 1 + f) * 4 + p) ⟨0, 0⟩
  let vis1 : Tensor4 := fun t b f p => vis0 t b f (polRemap p)
  let visData := if conj then (fun t b f p => cconj (vis1 t b f p)) else vis1
  let baselines := (uv.ant_1_array.take uv.nbls).zip (uv.ant_2_array.take uv.nbls)
  let first ← ofOption uv.phase_center_catalog.head? (.indexError "index 0 is out of bounds")
  let sourceName := first.2.cat_name
  return { uvw := uvw,
           time := tRe.map (fun jd => (jd - 4800001 / 2) * 86400),
           frequency := fC, vis := visData,
           weight := fun _ _ _ _ => 1, flags := fun _ _ _ _ => 0,
           baselines := baselines, integrationTime := tInt,
           channelBandwidth := fBw, polarisationFrame := "linear",
           source := sourceName, scanId := scan_id,
           scanIntent := scan_intent, execblockId := execblock_id,
           meta := [], phasecentre := pc, configuration := config }

/-! ## Concrete evaluation inputs

Small concrete instances of the data model, used to evaluate the
embedded functions at specific inputs (witnesses and counterexamples). -/

/-- Unwrap an Except value with an explicit fallback. -/
def exceptGet (d : α) : Except PyErr α → α
  | .ok v => v
  | .error _ => d

/-- Whether an Except value is a success. -/
def exceptIsOk : Except PyErr α → Bool
  | .ok _ => true
  | .error _ => false

/-- No duplicate keys in an association list (executable). -/
def noDupKeysB : List (String × β) → Bool
  | [] => true
  | (k, _) :: rest => (rest.lookup k).isNone && noDupKeysB rest

/-- A complete set of the seventeen required root attributes. -/
def fullRootAttrs : Attrs :=
  [("n_antennas", .i 2), ("ts_end", .q 110), ("n_pols", .i 2),
   ("n_beams", .i 1), ("tile_id", .i 0), ("n_chans", .i 1),
   ("n_samples", .i 1), ("type", .s "corr"), ("data_type", .s "complex"),
   ("data_mode", .s "burst"), ("ts_start", .q 100), ("n_baselines", .i 3),
   ("n_stokes", .i 4), ("channel_id", .i 10), ("timestamp", .q 100),
   ("date_time", .s "2023-10-12"), ("n_blocks", .i 1)]

/-- A one-sample correlation payload. -/
def corr0 : CorrMatrix := ⟨[1, 1, 1, 1], [[[[⟨1, 2⟩]]]]⟩

/-- A raw container with every required attribute, a payload, and a
sample-timestamp series whose first entry (200) differs from the nominal
ts_start attribute (100). -/
def rawGood : RawFile := ⟨fullRootAttrs, some corr0, some [[200]], none⟩

/-- A raw container whose root attributes lack n_baselines. -/
def rawNoBaselines : RawFile :=
  ⟨fullRootAttrs.filter (fun kv => kv.1 ≠ "n_baselines"), some corr0,
   some [[200]], none⟩

/-- A raw container with every required attribute but no
sample_timestamps series. -/
def rawNoSeries : RawFile := ⟨fullRootAttrs, some corr0, none, none⟩

/-- The metadata dict rawGood loads to. -/
def mdGood : Attrs := exceptGet [] (get_hdf5_metadata rawGood)

/-- A station YAML that (atypically but legally) defines ts_start, so it
collides with the per-observation start time of the raw container. -/
def c5yaml : Attrs :=
  [("telescope_name", .s "aavs3"), ("ts_start", .q 999),
   ("antenna_locations_file", .s "antennas.txt"),
   ("baseline_order_file", .s "baselines.txt"), ("tsamp", .q 2)]

/-- Filesystem for the C5 scenario: one YAML file. -/
def c5fs : FS :=
  ⟨fun _ => true,
   fun p => if p = "cfg/uv_config.yaml" then some c5yaml else none⟩

/-- Filesystem on which no resource exists and no YAML can be opened
(the missing-internal-config scenario). -/
def emptyFs : FS := ⟨fun _ => false, fun _ => none⟩

/-- The merged metadata of the C5 scenario (rawGood + c5yaml). -/
def c5res : Attrs :=
  exceptGet []
    (load_observation_metadata c5fs "/pkg" "1.0" (fun _ => "cfg") (fun p => p)
      rawGood (some "cfg/uv_config.yaml") none)

/-- A full station YAML for driving hdf5_to_uvx end to end. -/
def c9yaml : Attrs :=
  [("telescope_name", .s "aavs3"),
   ("telescope_ECEF_X", .q 0), ("telescope_ECEF_Y", .q 0),
   ("telescope_ECEF_Z", .q 1),
   ("antenna_locations_file", .s "antennas.txt"),
   ("baseline_order_file", .s "baselines.txt"),
   ("tsamp", .q 2), ("channel_spacing", .q 1000000),
   ("channel_width", .q 925926), ("channel_id", .i 10),
   ("receptor_angle", .q 0),
   ("conjugate_hdf5", .b true), ("transpose_hdf5", .b true),
   ("vis_units", .s "uncalibrated")]

/-- Filesystem for the hdf5_to_uvx runs: one YAML file at cfg.yaml. -/
def c9fs : FS :=
  ⟨fun _ => true, fun p => if p = "cfg.yaml" then some c9yaml else none⟩

/-- Concrete type of the opaque visibility-array builder's output used in
the hdf5_to_uvx evaluation: the builder simply records its arguments. -/
abbrev D9 := VisPayload × List ℚ × List ℚ × ELoc × Bool × Bool

/-- A concrete hdf5_to_uvx environment whose opaque collaborators record
their arguments. -/
def c9env : UvxEnv Unit String D9 :=
  { fs := c9fs, pathRoot := "/pkg", version := "1.0",
    dirnameAbspath := fun _ => "cfg", abspath := fun p => p,
    slfpy := fun _ => (⟨0, 0, 0⟩, ()),
    readCsv := fun _ => some (),
    cada := fun _ _ _ => "antenna_array",
    cva := fun p f t e cj tr => (p, f, t, e, cj, tr),
    softwareVersions := [("aa_uv", .s "1.0")],
    emptyProvenance := [], emptyContext := [] }

/-- Run hdf5_to_uvx on the concrete inputs with the given load_data. -/
def c9run (load_data : Bool) : Except PyErr (UVXResult String D9) :=
  hdf5_to_uvx c9env "data.hdf5" rawGood none (some "cfg.yaml") false
    none none load_data

/-- Fallback UVX result for unwrapping the concrete runs. -/
def uvxResultDefault : UVXResult String D9 :=
  { name := "", antennas := "", context := [],
    data := ([], [], [], ⟨0, 0, 0⟩, false, false),
    dataAttrs := [], timeAttrs := [], freqAttrs := [], timestamps := [],
    frequency := [], origin := ⟨0, 0, 0⟩,
    phase_center := .zenithAt 0 ⟨0, 0, 0⟩, provenance := [] }

/-- The load_data=True run's result. -/
def c9rt : UVXResult String D9 := exceptGet uvxResultDefault (c9run true)

/-- The load_data=False run's result. -/
def c9rf : UVXResult String D9 := exceptGet uvxResultDefault (c9run false)

/-- A small, fully populated UV model (as hdf5_to_uvx would produce:
plain attrs dicts, a unit tag on the data array, a scalar phase
center). -/
def c1m0 : UVM :=
  { name := "aavs3",
    data :=
      { values := [[[[⟨1, 2⟩]]]],
        attrs := [("unit", .av (.s "uncalibrated"))],
        time :=
          { mjd := ⟨[60000], []⟩, lst := ⟨[1], []⟩, unix := ⟨[100], []⟩,
            attrs := [("resolution", .q 2), ("resolution_unit", .s "s")] },
        baseline := { ant1 := ⟨[0], []⟩, ant2 := ⟨[1], []⟩, attrs := [] },
        frequency := ⟨[10000000], [("resolution", .q 1000000)]⟩,
        polarization := ⟨["XX"], []⟩ },
    antennas :=
      { enu := ⟨[[0, 0, 0]], [("unit", .s "m")]⟩,
        ecef := ⟨[[1, 0, 0]], [("unit", .s "m")]⟩,
        antenna := ⟨[0], []⟩, spatial := ⟨["E", "N", "U"], []⟩,
        identifier := ⟨["ANT000"], []⟩, flags := ⟨[0], []⟩,
        array_origin_geocentric := ⟨[0, 0, 1], [("unit", .s "m")]⟩,
        array_origin_geodetic :=
          ⟨[10, 20, 30], [("unit", .sArr ["deg", "deg", "m"])]⟩ },
    phase_center := { ra_deg := [30], dec_deg := [-45], isscalar := true },
    provenance :=
      [("history", .scalar (.s "made")),
       ("input_files", .dict [("data_filename", .s "d.h5")])],
    context := [("intent", .scalar (.s "test"))] }

/-- Fallback UV model for unwrapping the concrete roundtrip. -/
def uvmDefault : UVM :=
  { name := "",
    data :=
      { values := [], attrs := [],
        time := { mjd := ⟨[], []⟩, lst := ⟨[], []⟩, unix := ⟨[], []⟩, attrs := [] },
        baseline := { ant1 := ⟨[], []⟩, ant2 := ⟨[], []⟩, attrs := [] },
        frequency := ⟨[], []⟩, polarization := ⟨[], []⟩ },
    antennas :=
      { enu := ⟨[], []⟩, ecef := ⟨[], []⟩, antenna := ⟨[], []⟩,
        spatial := ⟨[], []⟩, identifier := ⟨[], []⟩, flags := ⟨[], []⟩,
        array_origin_geocentric := ⟨[], []⟩,
        array_origin_geodetic := ⟨[], []⟩ },
    phase_center := { ra_deg := [], dec_deg := [], isscalar := false },
    provenance := [], context := [] }

/-- The roundtrip of the concrete UV model through the uv5 codec. -/
def c1rt : UVM := exceptGet uvmDefault (uv5_to_uv (uv_to_uv5 "1.0" c1m0))

/-- Well-formedness of a provenance-style dict: unique keys, and unique
keys inside every nested mapping. -/
def pdictWfB (d : PDict) : Bool :=
  noDupKeysB d && d.all fun kv =>
    match kv.2 with
    | .dict dd => noDupKeysB dd
    | .scalar _ => true

/-- The well-formedness a UV model has when produced by hdf5_to_uvx /
create_antenna_data_array: attribute dicts have unique keys, the codec's
added attribute names (description, dims) are not already taken, and the
array-origin arrays carry their unit attributes. -/
def c1wf (m : UVM) : Prop :=
  noDupKeysB m.data.time.attrs = true ∧
  m.data.time.attrs.lookup "description" = none ∧
  noDupKeysB m.data.polarization.attrs = true ∧
  m.data.polarization.attrs.lookup "description" = none ∧
  noDupKeysB m.data.frequency.attrs = true ∧
  noDupKeysB m.antennas.enu.attrs = true ∧
  m.antennas.enu.attrs.lookup "dims" = none ∧
  noDupKeysB m.antennas.ecef.attrs = true ∧
  m.antennas.ecef.attrs.lookup "dims" = none ∧
  noDupKeysB m.antennas.identifier.attrs = true ∧
  noDupKeysB m.antennas.flags.attrs = true ∧
  noDupKeysB m.antennas.array_origin_geocentric.attrs = true ∧
  (m.antennas.array_origin_geocentric.attrs.lookup "unit").isSome = true ∧
  noDupKeysB m.antennas.array_origin_geodetic.attrs = true ∧
  (m.antennas.array_origin_geodetic.attrs.lookup "unit").isSome = true ∧
  pdictWfB m.provenance = true ∧
  pdictWfB m.context = true

instance (m : UVM) : Decidable (c1wf m) := by
  unfold c1wf
  infer_instance

/-- A UVData object with two spectral windows (freq_array of length 2). -/
def c7uvd : UVDataObj :=
  { telescope_location := [0, 0, 1], telescope_name := "mwa",
    antenna_names := ["a", "b"], antenna_numbers := [0, 1],
    antenna_positions := [[0, 0, 0], [1, 0, 0]],
    time_array := [2460000], nbls := 1, ntimes := 1,
    freq_array := [[100000000], [200000000]], channel_width := 40000,
    phase_center_catalog := [(0, ⟨"zenith", 0, 0⟩)],
    phase_center_app_ra_degrees := [0],
    phase_center_app_dec_degrees := [0],
    integration_time := [1],
    uvw_array := [[1, 2, 3]],
    data_array := [⟨1, 0⟩, ⟨0, 1⟩, ⟨0, -1⟩, ⟨2, 0⟩],
    ant_1_array := [0], ant_2_array := [1] }

/-! ## Helper lemmas -/

theorem ebind_ok (a : α) (k : α → Except PyErr β) :
    (Except.ok a >>= k) = k a := rfl

theorem ebind_error (e : PyErr) (k : α → Except PyErr β) :
    ((Except.error e : Except PyErr α) >>= k) = Except.error e := rfl

theorem emap_bind (f : α → β) (e : Except PyErr γ) (k : γ → Except PyErr α) :
    Except.map f (e >>= k) = e >>= fun a => Except.map f (k a) := by
  cases e <;> rfl

theorem emap_ite (c : Prop) [Decidable c] (f : α → β) (x y : Except PyErr α) :
    Except.map f (if c then x else y) =
      if c then Except.map f x else Except.map f y := by
  split <;> rfl

theorem lookup_append {β : Type} (l1 l2 : List (String × β)) (k : String) :
    (l1 ++ l2).lookup k = ((l1.lookup k).or (l2.lookup k)) := by
  induction l1 with
  | nil => simp [List.lookup, Option.or]
  | cons a l ih =>
      cases hb : k == a.1 <;> simp [List.lookup, hb, ih, Option.or]

theorem mem_lookup_isSome {β : Type} (l : List (String × β)) (k : String)
    (v : β) (h : (k, v) ∈ l) : (l.lookup k).isSome = true := by
  induction l with
  | nil => simp at h
  | cons a l ih =>
      rcases List.mem_cons.mp h with h | h
      · simp [← h, List.lookup]
      · cases hb : k == a.1 <;> simp [List.lookup, hb, ih h]

theorem lookup_of_mem_noDup {β : Type} (l : List (String × β)) (k : String)
    (v : β) (hnd : noDupKeysB l = true) (h : (k, v) ∈ l) :
    l.lookup k = some v := by
  induction l with
  | nil => simp at h
  | cons a l ih =>
      simp only [noDupKeysB, Bool.and_eq_true] at hnd
      rcases List.mem_cons.mp h with h | h
      · simp [← h, List.lookup]
      · cases hb : k == a.1
        · simpa [List.lookup, hb] using ih hnd.2 h
        · exfalso
          have hk : k = a.1 := by simpa using hb
          have hs := mem_lookup_isSome l k v h
          have hn : l.lookup a.1 = none := by
            simpa [Option.isNone_iff_eq_none] using hnd.1
          rw [hk, hn] at hs
          simp at hs

theorem dset_of_lookup_none {β : Type} (d : List (String × β)) (k : String)
    (v : β) (h : d.lookup k = none) : dset d k v = d ++ [(k, v)] := by
  induction d with
  | nil => rfl
  | cons a l ih =>
      cases hb : k == a.1
      · have hne : ¬ a.1 = k := by
          intro he; rw [he] at hb; simp at hb
        simp only [List.lookup, hb] at h
        simpa [dset, hne] using ih h
      · simp [List.lookup, hb] at h

theorem dset_of_lookup_self {β : Type} (d : List (String × β)) (k : String)
    (v : β) (h : d.lookup k = some v) : dset d k v = d := by
  induction d with
  | nil => simp [List.lookup] at h
  | cons a l ih =>
      cases hb : k == a.1
      · have hne : ¬ a.1 = k := by
          intro he; rw [he] at hb; simp at hb
        simp only [List.lookup, hb] at h
        simpa [dset, hne] using ih h
      · have hk : k = a.1 := by simpa using hb
        simp only [List.lookup, hb] at h
        have hv : a.2 = v := by simpa using h
        simp [dset, hk, ← hv]

theorem dset_lookup_self {β : Type} (d : List (String × β)) (k : String)
    (v : β) : (dset d k v).lookup k = some v := by
  induction d with
  | nil => simp [dset, List.lookup]
  | cons a l ih =>
      by_cases ha : a.1 = k
      · simp [dset, ha, List.lookup]
      · have hb : (k == a.1) = false := by
          simp
          intro he; rw [he] at ha; exact ha rfl
        simp [dset, ha, List.lookup, hb, ih]

theorem dset_lookup_ne {β : Type} (d : List (String × β)) (k k' : String)
    (v : β) (hne : k' ≠ k) : (dset d k v).lookup k' = d.lookup k' := by
  induction d with
  | nil =>
      have hb : (k' == k) = false := by simpa using hne
      simp [dset, List.lookup, hb]
  | cons a l ih =>
      by_cases ha : a.1 = k
      · have hb : (k' == k) = false := by simpa using hne
        have hb2 : (k' == a.1) = false := by rw [ha]; exact hb
        simp [dset, ha, List.lookup, hb, hb2]
      · cases hb : k' == a.1 <;> simp [dset, ha, List.lookup, hb, ih]

theorem noDup_dset {β : Type} (d : List (String × β)) (k : String) (v : β)
    (hnd : noDupKeysB d = true) : noDupKeysB (dset d k v) = true := by
  induction d with
  | nil => simp [dset, noDupKeysB, List.lookup]
  | cons a l ih =>
      simp only [noDupKeysB, Bool.and_eq_true] at hnd
      by_cases ha : a.1 = k
      · simp only [dset, ha, if_pos]
        simp only [noDupKeysB, Bool.and_eq_true]
        exact ⟨by rw [← ha]; exact hnd.1, hnd.2⟩
      · simp only [dset, ha, if_neg, not_false_iff]
        simp only [noDupKeysB, Bool.and_eq_true]
        constructor
        · rw [dset_lookup_ne l k a.1 v ha]
          exact hnd.1
        · exact ih hnd.2

theorem dupdate_cons {β : Type} (d : List (String × β)) (a : String × β)
    (l : List (String × β)) :
    dupdate d (a :: l) = dupdate (dset d a.1 a.2) l := rfl

theorem noDup_dupdate {β : Type} (d e : List (String × β))
    (hnd : noDupKeysB d = true) : noDupKeysB (dupdate d e) = true := by
  induction e generalizing d with
  | nil => exact hnd
  | cons a l ih => rw [dupdate_cons]; exact ih _ (noDup_dset d a.1 a.2 hnd)

theorem noDup_dnorm {β : Type} (d : List (String × β)) :
    noDupKeysB (dnorm d) = true :=
  noDup_dupdate [] d rfl

theorem dupdate_lookup_of_none {β : Type} (d e : List (String × β))
    (k : String) (h : e.lookup k = none) :
    (dupdate d e).lookup k = d.lookup k := by
  induction e generalizing d with
  | nil => rfl
  | cons a l ih =>
      cases hb : k == a.1
      · simp only [List.lookup, hb] at h
        have hne : k ≠ a.1 := by
          intro he; rw [he] at hb; simp at hb
        rw [dupdate_cons, ih (dset d a.1 a.2) h, dset_lookup_ne d a.1 k a.2 hne]
      · simp [List.lookup, hb] at h

theorem dupdate_lookup_of_mem {β : Type} (d e : List (String × β))
    (k : String) (v : β) (hnd : noDupKeysB e = true)
    (h : e.lookup k = some v) : (dupdate d e).lookup k = some v := by
  induction e generalizing d with
  | nil => simp [List.lookup] at h
  | cons a l ih =>
      simp only [noDupKeysB, Bool.and_eq_true] at hnd
      rw [dupdate_cons]
      cases hb : k == a.1
      · simp only [List.lookup, hb] at h
        exact ih (dset d a.1 a.2) hnd.2 h
      · have hk : k = a.1 := by simpa using hb
        simp only [List.lookup, hb] at h
        have hn : l.lookup k = none := by
          rw [hk]
          simpa [Option.isNone_iff_eq_none] using hnd.1
        rw [dupdate_lookup_of_none _ _ _ hn, hk, dset_lookup_self, ← h]

theorem dupdate_of_all_fixed {β : Type} (d e : List (String × β))
    (h : ∀ kv ∈ e, d.lookup kv.1 = some kv.2) : dupdate d e = d := by
  induction e with
  | nil => rfl
  | cons a l ih =>
      rw [dupdate_cons, dset_of_lookup_self d a.1 a.2 (h a (by simp))]
      exact ih fun kv hkv => h kv (by simp [hkv])

theorem dupdate_self {β : Type} (d : List (String × β))
    (hnd : noDupKeysB d = true) : dupdate d d = d :=
  dupdate_of_all_fixed d d fun kv hkv =>
    lookup_of_mem_noDup d kv.1 kv.2 hnd hkv

theorem dupdate_append_fresh {β : Type} (e acc : List (String × β))
    (hnd : noDupKeysB e = true)
    (hfresh : ∀ kv ∈ e, acc.lookup kv.1 = none) :
    dupdate acc e = acc ++ e := by
  induction e generalizing acc with
  | nil => simp [dupdate]
  | cons a l ih =>
      simp only [noDupKeysB, Bool.and_eq_true] at hnd
      rw [dupdate_cons, dset_of_lookup_none acc a.1 a.2 (hfresh a (by simp))]
      rw [ih (acc ++ [(a.1, a.2)]) hnd.2]
      · simp
      · intro kv hkv
        rw [lookup_append]
        have h1 : acc.lookup kv.1 = none := hfresh kv (by simp [hkv])
        have h2 : ([(a.1, a.2)] : List (String × β)).lookup kv.1 = none := by
          have hne : ¬ kv.1 = a.1 := by
            intro he
            have hs := mem_lookup_isSome l kv.1 kv.2 hkv
            have hn : l.lookup a.1 = none := by
              simpa [Option.isNone_iff_eq_none] using hnd.1
            rw [he, hn] at hs
            simp at hs
          have hbne : (kv.1 == a.1) = false := by simpa using hne
          simp [List.lookup, hbne]
        simp [h1, h2, Option.or]

theorem dnorm_self {β : Type} (d : List (String × β))
    (hnd : noDupKeysB d = true) : dnorm d = d := by
  have := dupdate_append_fresh d [] hnd (fun kv _ => rfl)
  simpa [dnorm] using this

theorem getD_range_map (f : Nat → ℚ) (n j : Nat) (h : j < n) :
    ((List.range n).map f).getD j 0 = f j := by
  rw [List.getD_eq_getElem?_getD, List.getElem?_map, List.getElem?_range h]
  rfl

theorem valMul_error (v w : Val) (e : PyErr) (h : valMul v w = .error e) :
    ∃ s, e = .typeError s := by
  cases v <;> cases w <;>
    simp [valMul] at h <;>
    exact ⟨_, h.symm⟩

/-! ## Claim theorems -/

/-- C2: every code path that derives the frequency axis from metadata —
hdf5_to_uvx and the legacy hdf5_to_sdp_vis — produces
f_j = (j+1) · channel_spacing · channel_id (a one-based channel index),
and for n_chans=1, channel_spacing=1e6, channel_id=10 the axis is [1e7]. -/
theorem c2_frequency_axis_one_based (n : Nat) (s c : ℚ) (j : Nat)
    (h : j < n) :
    (freq_axis_uvx n s c).getD j 0 = ((j : ℚ) + 1) * s * c ∧
    (freq_axis_sdp n s c).getD j 0 = ((j : ℚ) + 1) * s * c ∧
    freq_axis_uvx 1 1000000 10 = [10000000] ∧
    freq_axis_sdp 1 1000000 10 = [10000000] := by
  refine ⟨?_, ?_, ?_, ?_⟩
  · unfold freq_axis_uvx; exact getD_range_map _ n j h
  · unfold freq_axis_sdp; exact getD_range_map _ n j h
  · simp only [freq_axis_uvx, show List.range 1 = [0] from rfl, List.map_cons, List.map_nil,
      List.cons.injEq, and_true]
    norm_num
  · simp only [freq_axis_sdp, show List.range 1 = [0] from rfl, List.map_cons, List.map_nil,
      List.cons.injEq, and_true]
    norm_num

/-- Witness for C2 at n_chans = 2, spacing = 3, channel_id = 5, j = 1. -/
theorem c2_frequency_axis_one_based_witness :
    1 < 2 ∧
    ((freq_axis_uvx 2 3 5).getD 1 0 = ((1 : ℚ) + 1) * 3 * 5 ∧
     (freq_axis_sdp 2 3 5).getD 1 0 = ((1 : ℚ) + 1) * 3 * 5 ∧
     freq_axis_uvx 1 1000000 10 = [10000000] ∧
     freq_axis_sdp 1 1000000 10 = [10000000]) :=
  ⟨by decide, c2_frequency_axis_one_based 2 3 5 1 (by decide)⟩

/-- C3 counterexample: at n_integrations=1, tsamp=2, ts_start=0, the
legacy hdf5_to_sdp_vis time axis is [0], not the claimed
[ts_start + 0·tsamp + tsamp/2] = [1]: the legacy path has no half-sample
centering. -/
theorem c3_counterexample :
    time_axis_sdp 1 2 0 = [0] ∧
    time_axis_sdp 1 2 0 ≠ [0 + 0 * 2 + 2 / 2] := by
  have h1 : time_axis_sdp 1 2 0 = [0] := by
    simp only [time_axis_sdp, show List.range 1 = [0] from rfl, List.map_cons, List.map_nil,
      List.cons.injEq, and_true]
    norm_num
  refine ⟨h1, ?_⟩
  rw [h1]
  intro h
  simp only [List.cons.injEq, and_true] at h
  norm_num at h

/-- C3 amended: hdf5_to_uvx derives t_i = ts_start + i·tsamp + tsamp/2
(half-sample centering, [ts_start + tsamp/2] for one integration), but
the legacy hdf5_to_sdp_vis derives t_i = ts_start + i·tsamp with no
half-sample offset. -/
theorem c3_time_axis (n : Nat) (tsamp ts : ℚ) (i : Nat) (h : i < n) :
    (time_axis_uvx n tsamp ts).getD i 0 = ts + (i : ℚ) * tsamp + tsamp / 2 ∧
    (time_axis_sdp n tsamp ts).getD i 0 = ts + (i : ℚ) * tsamp ∧
    time_axis_uvx 1 tsamp ts = [ts + tsamp / 2] := by
  refine ⟨?_, ?_, ?_⟩
  · unfold time_axis_uvx; rw [getD_range_map _ n i h]; ring
  · unfold time_axis_sdp; rw [getD_range_map _ n i h]; ring
  · simp only [time_axis_uvx, show List.range 1 = [0] from rfl,
      List.map_cons, List.map_nil, List.cons.injEq, and_true]
    push_cast
    ring

/-- Witness for C3's amended statement at n = 1, tsamp = 2, ts_start = 100. -/
theorem c3_time_axis_witness :
    0 < 1 ∧
    ((time_axis_uvx 1 2 100).getD 0 0 = 100 + (0 : ℚ) * 2 + 2 / 2 ∧
     (time_axis_sdp 1 2 100).getD 0 0 = 100 + (0 : ℚ) * 2 ∧
     time_axis_uvx 1 2 100 = [100 + 2 / 2]) :=
  ⟨by decide, c3_time_axis 1 2 100 0 (by decide)⟩

/-- C4 counterexample: on a container missing n_baselines the loader
raises the generic Exception('Missing metadata in file'), which is not a
MissingMetadataError. -/
theorem c4_counterexample :
    get_hdf5_metadata rawNoBaselines =
      .error (.pyException "Missing metadata in file") ∧
    PyErr.pyException "Missing metadata in file" ≠
      PyErr.missingMetadataError :=
  ⟨rfl, by decide⟩

/-- C4 amended: when any required root attribute is absent,
get_hdf5_metadata raises the generic Exception('Missing metadata in
file') — the same fixed error for every payload, so no part of the
correlation-matrix payload is read. -/
theorem c4_missing_metadata (f : RawFile) (k : String) (hk : k ∈ expectedKeys)
    (hnone : f.rootAttrs.lookup k = none) :
    get_hdf5_metadata f = .error (.pyException "Missing metadata in file") := by
  have hall : ¬ (expectedKeys.all fun k2 => (f.rootAttrs.lookup k2).isSome) = true := by
    simp only [List.all_eq_true]
    intro hall
    have hs := hall k hk
    rw [hnone] at hs
    simp at hs
  unfold get_hdf5_metadata
  rw [if_pos hall]
  rfl

/-- Witness for C4's amended statement on the container missing
n_baselines. -/
theorem c4_missing_metadata_witness :
    "n_baselines" ∈ expectedKeys ∧
    rawNoBaselines.rootAttrs.lookup "n_baselines" = none ∧
    get_hdf5_metadata rawNoBaselines =
      .error (.pyException "Missing metadata in file") :=
  ⟨by decide, by decide,
   c4_missing_metadata rawNoBaselines "n_baselines" (by decide) (by decide)⟩

/-- C10: on a container that lacks the sample_timestamps/data series,
get_hdf5_metadata fails even when all seventeen required root attributes
are present — the optional series is unconditionally dereferenced — and
the failure is not the required-key check's Exception('Missing metadata
in file'), nor a MissingMetadataError. -/
theorem c10_series_unconditionally_dereferenced (f : RawFile)
    (hall : (expectedKeys.all fun k => (f.rootAttrs.lookup k).isSome) = true)
    (hnone : f.sampleTimestamps = none) :
    exceptIsOk (get_hdf5_metadata f) = false ∧
    get_hdf5_metadata f ≠ .error (.pyException "Missing metadata in file") ∧
    get_hdf5_metadata f ≠ .error PyErr.missingMetadataError := by
  obtain ⟨nb, hnb⟩ : ∃ nb, f.rootAttrs.lookup "n_blocks" = some nb :=
    Option.isSome_iff_exists.mp (List.all_eq_true.mp hall "n_blocks" (by decide))
  obtain ⟨ns, hns⟩ : ∃ ns, f.rootAttrs.lookup "n_samples" = some ns :=
    Option.isSome_iff_exists.mp (List.all_eq_true.mp hall "n_samples" (by decide))
  have key : ∃ e, get_hdf5_metadata f = .error e ∧
      (∀ s, e ≠ .pyException s) ∧ e ≠ .missingMetadataError := by
    unfold get_hdf5_metadata
    rw [if_neg (not_not_intro hall)]
    simp only [dget, hnb, hns, ebind_ok]
    cases hm : valMul nb ns with
    | error e =>
        obtain ⟨s, hs⟩ := valMul_error nb ns e hm
        subst hs
        refine ⟨.typeError s, by rw [ebind_error], ?_, ?_⟩
        · intro s2 hcontra; cases hcontra
        · intro hcontra; cases hcontra
    | ok ni =>
        rw [ebind_ok]
        cases hc : f.corr with
        | none =>
            refine ⟨.keyError "correlation_matrix", ?_, ?_, ?_⟩
            · simp only [ofOption, ebind_error]
            · intro s2 hcontra; cases hcontra
            · intro hcontra; cases hcontra
        | some c =>
            simp only [ofOption, ebind_ok, hnone]
            refine ⟨.keyError "sample_timestamps/data", ?_, ?_, ?_⟩
            · simp only [ebind_error]
            · intro s2 hcontra; cases hcontra
            · intro hcontra; cases hcontra
  obtain ⟨e, he, hne1, hne2⟩ := key
  refine ⟨by rw [he]; rfl, ?_, ?_⟩
  · rw [he]
    intro hcontra
    injection hcontra with h2
    exact hne1 _ h2
  · rw [he]
    intro hcontra
    injection hcontra with h2
    exact hne2 h2

/-- Witness for C10 on the container with all attributes but no
timestamp series. -/
theorem c10_series_unconditionally_dereferenced_witness :
    (expectedKeys.all fun k => (rawNoSeries.rootAttrs.lookup k).isSome) = true ∧
    rawNoSeries.sampleTimestamps = none ∧
    get_hdf5_metadata rawNoSeries ≠
      .error (.pyException "Missing metadata in file") :=
  ⟨by decide, rfl,
   (c10_series_unconditionally_dereferenced rawNoSeries (by decide) rfl).2.1⟩

/-- When get_hdf5_metadata succeeds on a container whose sample-timestamp
series is present, the returned ts_start is the first sample's recorded
timestamp. -/
theorem get_hdf5_metadata_ts_start (f : RawFile) (md : Attrs) (v : ℚ)
    (row : List ℚ) (rest : List (List ℚ))
    (hmd : get_hdf5_metadata f = .ok md)
    (hseries : f.sampleTimestamps = some ((v :: row) :: rest)) :
    md.lookup "ts_start" = some (.q v) := by
  unfold get_hdf5_metadata at hmd
  by_cases hall : (expectedKeys.all fun k => (f.rootAttrs.lookup k).isSome) = true
  · rw [if_neg (not_not_intro hall)] at hmd
    cases hnb : f.rootAttrs.lookup "n_blocks" with
    | none => simp [dget, hnb, ebind_error] at hmd
    | some nb =>
        cases hns : f.rootAttrs.lookup "n_samples" with
        | none => simp [dget, hnb, hns, ebind_ok, ebind_error] at hmd
        | some ns =>
            simp only [dget, hnb, hns, ebind_ok] at hmd
            cases hm : valMul nb ns with
            | error e => rw [hm, ebind_error] at hmd; cases hmd
            | ok ni =>
                rw [hm, ebind_ok] at hmd
                cases hc : f.corr with
                | none => rw [hc] at hmd; simp [ofOption, ebind_error] at hmd
                | some c =>
                    rw [hc] at hmd
                    simp only [ofOption, ebind_ok, hseries] at hmd
                    simp only [List.head?, ebind_ok] at hmd
                    have hr : md = dset
                        (dset (dset f.rootAttrs "n_integrations" ni)
                          "data_shape" (.iArr (c.shape.map Int.ofNat)))
                        "ts_start" (.q v) := by
                      cases hmd; rfl
                    rw [hr]
                    exact dset_lookup_self _ "ts_start" (Val.q v)
  · rw [if_pos hall] at hmd
    cases hmd

/-- C8 counterexample: with a telescope name whose internal config does
not exist, get_config_path still returns the constructed path (no
ConfigResolutionError); the loader reads the raw container's metadata
first (a metadata failure surfaces even though the config is missing),
and a missing config surfaces afterwards as a FileNotFoundError when
the YAML is opened. -/
theorem c8_counterexample :
    get_config_path emptyFs "/pkg/aa_uv" (some "aavs3") =
      .ok "/pkg/aa_uv/config/aavs3/uv_config.yaml" ∧
    load_observation_metadata emptyFs "/pkg/aa_uv" "1.0" (fun p => p)
      (fun p => p) rawNoBaselines none (some "aavs3") =
      .error (.pyException "Missing metadata in file") ∧
    load_observation_metadata emptyFs "/pkg/aa_uv" "1.0" (fun p => p)
      (fun p => p) rawGood none (some "aavs3") =
      .error (.fileNotFoundError "/pkg/aa_uv/config/aavs3/uv_config.yaml") ∧
    PyErr.fileNotFoundError "/pkg/aa_uv/config/aavs3/uv_config.yaml" ≠
      PyErr.configResolutionError ∧
    PyErr.pyException "Missing metadata in file" ≠
      PyErr.configResolutionError :=
  ⟨rfl, rfl, rfl, by decide, by decide⟩

/-- C8 amended: resolving a named telescope config that is absent raises
nothing — get_config_path returns the constructed path (a warning is
logged) — the loader performs raw-file I/O (metadata read) before any
config resolution, and the missing config then surfaces as a
FileNotFoundError when the YAML file is opened. -/
theorem c8_config_resolution (fs : FS) (pathRoot version n : String)
    (dA aP : String → String) (raw : RawFile) (md : Attrs)
    (hmiss : fs.yamlFiles
      (os_path_join pathRoot ("config/" ++ n ++ "/uv_config.yaml")) = none)
    (hmd : get_hdf5_metadata raw = .ok md) :
    get_config_path fs pathRoot (some n) =
      .ok (os_path_join pathRoot ("config/" ++ n ++ "/uv_config.yaml")) ∧
    (∀ raw2 e2, get_hdf5_metadata raw2 = .error e2 →
      load_observation_metadata fs pathRoot version dA aP raw2 none (some n) =
        .error e2) ∧
    load_observation_metadata fs pathRoot version dA aP raw none (some n) =
      .error (.fileNotFoundError
        (os_path_join pathRoot ("config/" ++ n ++ "/uv_config.yaml"))) := by
  refine ⟨rfl, ?_, ?_⟩
  · intro raw2 e2 h2
    unfold load_observation_metadata
    rw [h2, ebind_error]
  · unfold load_observation_metadata
    rw [hmd, ebind_ok,
      show resolve_yaml_config fs pathRoot none (some n) =
        .ok (os_path_join pathRoot ("config/" ++ n ++ "/uv_config.yaml")) from rfl,
      ebind_ok]
    unfold load_yaml
    rw [hmiss, ebind_error]

/-- Witness for C8's amended statement on the empty filesystem. -/
theorem c8_config_resolution_witness :
    emptyFs.yamlFiles
      (os_path_join "/pkg/aa_uv" ("config/" ++ "aavs3" ++ "/uv_config.yaml")) = none ∧
    get_hdf5_metadata rawGood = .ok mdGood ∧
    load_observation_metadata emptyFs "/pkg/aa_uv" "1.0" (fun p => p)
      (fun p => p) rawGood none (some "aavs3") =
      .error (.fileNotFoundError
        (os_path_join "/pkg/aa_uv" ("config/" ++ "aavs3" ++ "/uv_config.yaml"))) :=
  ⟨rfl, rfl,
   (c8_config_resolution emptyFs "/pkg/aa_uv" "1.0" "aavs3" (fun p => p)
     (fun p => p) rawGood mdGood rfl rfl).2.2⟩

theorem ebind_ok_inv (e : Except PyErr α) (k : α → Except PyErr β) (b : β)
    (h : (e >>= k) = .ok b) : ∃ a, e = .ok a ∧ k a = .ok b := by
  cases e with
  | error e2 => rw [ebind_error] at h; cases h
  | ok a => exact ⟨a, rfl, h⟩

theorem emap_ok (f : α → β) (a : α) :
    Except.map (ε := PyErr) f (Except.ok a) = .ok (f a) := rfl

theorem sliceStep_head {α : Type} (n : Nat) (x : α) (l : List α) :
    (sliceStep n (x :: l)).head? = some x := by
  simp [sliceStep, List.enum_cons, List.filter_cons, Nat.zero_mod]

/-- C7 counterexample: on a source object with two spectral windows the
adapter raises NotImplementedError, not an UnsupportedLayoutError (no
such class exists in the code). -/
theorem c7_counterexample :
    uvdata_to_sdp_vis (fun l => l) 0 "" "" false true c7uvd ≠
      .error PyErr.unsupportedLayoutError := by
  have h0 : uvdata_to_sdp_vis (fun l => l) 0 "" "" false true c7uvd =
      .error (.notImplementedError
        "Only length-1 frequency arrays supported at present.") := rfl
  rw [h0]
  intro h
  injection h with h2
  cases h2

/-- C7 amended: for every source visibility-dataset object with more than
one spectral window (and well-formed telescope location / Nbls / times,
which are consumed first), uvdata_to_sdp_vis raises NotImplementedError
before producing any output. -/
theorem c7_multi_window (sidereal : List ℚ → List ℚ) (scan_id : Int)
    (scan_intent execblock_id : String) (conj flip_uvw : Bool)
    (uv : UVDataObj) (el : ELoc)
    (hel : fromGeocentric uv.telescope_location = .ok el)
    (hb : uv.nbls ≠ 0) (ht : uv.time_array ≠ [])
    (hf : 1 < uv.freq_array.length) :
    uvdata_to_sdp_vis sidereal scan_id scan_intent execblock_id conj
      flip_uvw uv =
    .error (.notImplementedError
      "Only length-1 frequency arrays supported at present.") := by
  obtain ⟨x, l, hxl⟩ : ∃ x l, uv.time_array = x :: l := by
    cases hta : uv.time_array with
    | nil => exact absurd hta ht
    | cons x l => exact ⟨x, l, rfl⟩
  obtain ⟨f0, fl, hfl⟩ : ∃ f0 fl, uv.freq_array = f0 :: fl := by
    cases hfa : uv.freq_array with
    | nil => rw [hfa] at hf; simp at hf
    | cons f0 fl => exact ⟨f0, fl, rfl⟩
  rw [hfl] at hf
  unfold uvdata_to_sdp_vis
  rw [hel, ebind_ok,
    show raiseIf (uv.nbls = 0) (.valueError "slice step cannot be zero") =
      .ok PUnit.unit from by simp [raiseIf, hb],
    ebind_ok, hxl, hfl]
  try simp only []
  rw [show (ofOption (sliceStep uv.nbls (x :: l)).head?
      (.indexError "index 0 is out of bounds")) = .ok x from by
        rw [sliceStep_head]; rfl,
    ebind_ok]
  try simp only []
  rw [show (ofOption (f0 :: fl).head?
      (.indexError "index 0 is out of bounds")) = .ok f0 from rfl,
    ebind_ok]
  try simp only []
  rw [show raiseIf ((f0 :: fl).length > 1) (.notImplementedError
      "Only length-1 frequency arrays supported at present.") =
      .error (.notImplementedError
        "Only length-1 frequency arrays supported at present.") from by
      unfold raiseIf; rw [if_pos hf],
    ebind_error]

/-- Witness for C7's amended statement on the two-window object. -/
theorem c7_multi_window_witness :
    fromGeocentric c7uvd.telescope_location = .ok ⟨0, 0, 1⟩ ∧
    c7uvd.nbls ≠ 0 ∧ c7uvd.time_array ≠ [] ∧
    1 < c7uvd.freq_array.length ∧
    uvdata_to_sdp_vis (fun l => l) 5 "intent" "eb" true false c7uvd =
      .error (.notImplementedError
        "Only length-1 frequency arrays supported at present.") :=
  ⟨rfl, by decide, by decide, by decide,
   c7_multi_window (fun l => l) 5 "intent" "eb" true false c7uvd ⟨0, 0, 1⟩
     rfl (by decide) (by decide) (by decide)⟩

/-- A successful hdf5_to_uvx_pre run takes its payload from the raw
container's correlation_matrix data. -/
theorem hdf5_to_uvx_pre_payload {P A D : Type} (env : UvxEnv P A D)
    (raw : RawFile) (tn yc : Option String) (fpy : Bool) (p : UvxPre A)
    (c : CorrMatrix) (hc : raw.corr = some c)
    (h : hdf5_to_uvx_pre env raw tn yc fpy = .ok p) :
    p.payload = c.data := by
  unfold hdf5_to_uvx_pre at h
  obtain ⟨md, hmd, h⟩ := ebind_ok_inv _ _ _ h
  obtain ⟨corr, hcorr, h⟩ := ebind_ok_inv _ _ _ h
  obtain ⟨ea, hea, h⟩ := ebind_ok_inv _ _ _ h
  obtain ⟨eloc, antpos⟩ := ea
  obtain ⟨nInt, h1, h⟩ := ebind_ok_inv _ _ _ h
  obtain ⟨tsamp, h2, h⟩ := ebind_ok_inv _ _ _ h
  obtain ⟨tsStart, h3, h⟩ := ebind_ok_inv _ _ _ h
  obtain ⟨nChans, h4, h⟩ := ebind_ok_inv _ _ _ h
  obtain ⟨spacing, h5, h⟩ := ebind_ok_inv _ _ _ h
  obtain ⟨chId, h6, h⟩ := ebind_ok_inv _ _ _ h
  obtain ⟨rotAng, h7, h⟩ := ebind_ok_inv _ _ _ h
  rw [hc] at hcorr
  have hcc : corr = c := by
    have := hcorr
    simp [ofOption] at this
    exact this.symm
  cases h
  rw [hcc]

/-- C9: with load_data=False, hdf5_to_uvx builds the visibility array by
calling create_visibility_array with conj=False, transpose=False —
regardless of the configured conjugate_hdf5 / transpose_hdf5 policy
flags — while every other field of the returned model (name, antenna
table, time and frequency axes, origin, phase center, provenance,
context, and the data / time / frequency attribute dictionaries) is
identical to what the load_data=True run produces. -/
theorem c9_load_data_skips_flags {P A D : Type} (env : UvxEnv P A D)
    (fn_data : String) (raw : RawFile) (tn yc : Option String) (fpy : Bool)
    (ctx prov : Option PDict) (rt rf : UVXResult A D) (c : CorrMatrix)
    (hc : raw.corr = some c)
    (ht : hdf5_to_uvx env fn_data raw tn yc fpy ctx prov true = .ok rt)
    (hf : hdf5_to_uvx env fn_data raw tn yc fpy ctx prov false = .ok rf) :
    rf.data = env.cva c.data rf.frequency rf.timestamps rf.origin
      false false ∧
    rt.name = rf.name ∧ rt.antennas = rf.antennas ∧ rt.context = rf.context ∧
    rt.dataAttrs = rf.dataAttrs ∧ rt.timeAttrs = rf.timeAttrs ∧
    rt.freqAttrs = rf.freqAttrs ∧ rt.timestamps = rf.timestamps ∧
    rt.frequency = rf.frequency ∧ rt.origin = rf.origin ∧
    rt.phase_center = rf.phase_center ∧ rt.provenance = rf.provenance := by
  unfold hdf5_to_uvx at ht hf
  obtain ⟨p, hp, ht⟩ := ebind_ok_inv _ _ _ ht
  rw [hp, ebind_ok] at hf
  obtain ⟨dt, hdt, ht⟩ := ebind_ok_inv _ _ _ ht
  obtain ⟨df, hdf2, hf⟩ := ebind_ok_inv _ _ _ hf
  have hdf3 : df = env.cva p.payload p.f p.t p.eloc false false := by
    unfold hdf5_to_uvx_mk_data at hdf2
    rw [if_neg Bool.false_ne_true] at hdf2
    exact (Except.ok.inj hdf2).symm
  cases hpost : hdf5_to_uvx_post env raw fn_data prov ctx p with
  | error e =>
      rw [hpost] at ht
      simp [Except.map] at ht
  | ok rest =>
      rw [hpost, emap_ok] at ht hf
      have hrt := (Except.ok.inj ht).symm
      have hrf := (Except.ok.inj hf).symm
      subst hrt
      subst hrf
      have hpl := hdf5_to_uvx_pre_payload env raw tn yc fpy p c hc hp
      refine ⟨?_, rfl, rfl, rfl, rfl, rfl, rfl, rfl, rfl, rfl, rfl, rfl⟩

      show df = env.cva c.data p.f p.t p.eloc false false
      rw [hdf3, hpl]

/-- Witness for C9 on the concrete environment and raw capture: the two
runs succeed and the load_data=False data array records conj=False,
transpose=False. -/
theorem c9_load_data_skips_flags_witness :
    rawGood.corr = some corr0 ∧
    c9run true = .ok c9rt ∧
    c9run false = .ok c9rf ∧
    c9rf.data = c9env.cva corr0.data c9rf.frequency c9rf.timestamps
      c9rf.origin false false ∧
    c9rt.provenance = c9rf.provenance :=
  ⟨rfl, rfl, rfl,
   (c9_load_data_skips_flags c9env "data.hdf5" rawGood none (some "cfg.yaml")
     false none none c9rt c9rf corr0 rfl rfl rfl).1,
   (c9_load_data_skips_flags c9env "data.hdf5" rawGood none (some "cfg.yaml")
     false none none c9rt c9rf corr0 rfl rfl rfl).2.2.2.2.2.2.2.2.2.2.2⟩

/-- C6: in both exporters with a UVW sign flag — hdf5_to_sdp_vis (via
its UVX → SDP mapping stage) and uvdata_to_sdp_vis — the run with
flip_uvw=True is exactly the run with flip_uvw=False with the whole
(time, baseline, 3) UVW tensor negated elementwise, every other output
field identical (and a failing run fails identically). -/
theorem c6_flip_uvw_single_toggle :
    (∀ (calcUvw : UVXObjSdp → Tensor3)
       (calcPhs : UVXObjSdp → (Nat → Nat → Nat → QC))
       (scan_id : Int) (scan_intent execblock_id : String)
       (apply_phasing : Bool) (uv : UVXObjSdp),
       hdf5_to_sdp_vis_tail calcUvw calcPhs scan_id scan_intent execblock_id
         true apply_phasing uv =
       (hdf5_to_sdp_vis_tail calcUvw calcPhs scan_id scan_intent execblock_id
         false apply_phasing uv).map
         (fun v => { v with uvw := fun t b k => -(v.uvw t b k) })) ∧
    (∀ (sidereal : List ℚ → List ℚ) (scan_id : Int)
       (scan_intent execblock_id : String) (conj : Bool) (uv : UVDataObj),
       uvdata_to_sdp_vis sidereal scan_id scan_intent execblock_id conj
         true uv =
       (uvdata_to_sdp_vis sidereal scan_id scan_intent execblock_id conj
         false uv).map
         (fun v => { v with uvw := fun t b k => -(v.uvw t b k) })) := by
  constructor
  · intro calcUvw calcPhs scan_id scan_intent execblock_id apply_phasing uv
    unfold hdf5_to_sdp_vis_tail
    simp only [emap_bind]
    rfl
  · intro sidereal scan_id scan_intent execblock_id conj uv
    unfold uvdata_to_sdp_vis
    simp only [emap_bind]
    rfl

/-- C5 counterexample: raw container and station YAML share the key
ts_start; the merged metadata takes the YAML value (999), not the raw
container's per-observation start time (200, from the authoritative
sample-timestamp series). -/
theorem c5_counterexample :
    (load_observation_metadata c5fs "/pkg" "1.0" (fun _ => "cfg")
        (fun p => p) rawGood (some "cfg/uv_config.yaml") none).map
      (fun d => d.lookup "ts_start") = .ok (some (.q 999)) ∧
    (get_hdf5_metadata rawGood).map (fun d => d.lookup "ts_start") =
      .ok (some (.q 200)) ∧
    Val.q 999 ≠ Val.q 200 :=
  ⟨rfl, rfl, by decide⟩

/-- C5 amended: the merge is plain dict.update — the YAML value wins for
every shared key (except the four entries the loader rewrites
afterwards), including per-observation facts like ts_start; the raw
container's value survives only for keys the YAML does not define, and
get_hdf5_metadata itself does return the first sample timestamp of the
series as ts_start. -/
theorem c5_merge_semantics (fs : FS) (pathRoot version ycfg : String)
    (dA aP : String → String) (raw : RawFile) (md0 mdY r : Attrs)
    (a b : String)
    (hmd : get_hdf5_metadata raw = .ok md0)
    (hyaml : fs.yamlFiles ycfg = some mdY)
    (hnd : noDupKeysB mdY = true)
    (half : mdY.lookup "antenna_locations_file" = some (.s a))
    (hblf : mdY.lookup "baseline_order_file" = some (.s b))
    (hrun : load_observation_metadata fs pathRoot version dA aP raw
      (some ycfg) none = .ok r) :
    (∀ k, (mdY.lookup k).isSome = true →
      k ∉ (["antenna_locations_file", "baseline_order_file", "history",
            "station_config_file"] : List String) →
      r.lookup k = mdY.lookup k) ∧
    (mdY.lookup "ts_start" = none →
      r.lookup "ts_start" = md0.lookup "ts_start") ∧
    (∀ v row rest, raw.sampleTimestamps = some ((v :: row) :: rest) →
      md0.lookup "ts_start" = some (.q v)) := by
  unfold load_observation_metadata at hrun
  rw [hmd, ebind_ok,
    show resolve_yaml_config fs pathRoot (some ycfg) none = .ok ycfg from rfl,
    ebind_ok,
    show (load_yaml fs ycfg) = .ok mdY from by unfold load_yaml; rw [hyaml],
    ebind_ok] at hrun
  simp only [] at hrun
  set u0 := dupdate md0 mdY with hu0
  set u1 := dset u0 "history"
    (Val.s ("Created with ska_ost_low_uv " ++ version)) with hu1
  have hgalf : dgetS u1 "antenna_locations_file" = .ok a := by
    have hl : u1.lookup "antenna_locations_file" = some (Val.s a) := by
      rw [hu1, dset_lookup_ne u0 "history" _ _ (by decide), hu0]
      exact dupdate_lookup_of_mem md0 mdY _ _ hnd half
    simp [dgetS, dget, hl, ebind_ok]
  rw [hgalf, ebind_ok] at hrun
  set u2 := dset u1 "antenna_locations_file"
    (Val.s (os_path_join (dA ycfg) a)) with hu2
  have hgblf : dgetS u2 "baseline_order_file" = .ok b := by
    have hl : u2.lookup "baseline_order_file" = some (Val.s b) := by
      rw [hu2, dset_lookup_ne u1 "antenna_locations_file" _ _ (by decide),
        hu1, dset_lookup_ne u0 "history" _ _ (by decide), hu0]
      exact dupdate_lookup_of_mem md0 mdY _ _ hnd hblf
    simp [dgetS, dget, hl, ebind_ok]
  rw [hgblf, ebind_ok] at hrun
  set u3 := dset u2 "baseline_order_file"
    (Val.s (os_path_join (dA ycfg) b)) with hu3
  set u4 := dset u3 "station_config_file" (Val.s (aP ycfg)) with hu4
  have hr : u4 = r := Except.ok.inj hrun
  subst hr
  refine ⟨?_, ?_, ?_⟩
  · intro k hks hkn
    simp only [List.mem_cons, List.not_mem_nil, or_false, not_or] at hkn
    obtain ⟨hk1, hk2, hk3, hk4⟩ := hkn
    rw [hu4, dset_lookup_ne u3 _ k _ hk4, hu3, dset_lookup_ne u2 _ k _ hk2,
      hu2, dset_lookup_ne u1 _ k _ hk1, hu1, dset_lookup_ne u0 _ k _ hk3, hu0]
    obtain ⟨v, hv⟩ := Option.isSome_iff_exists.mp hks
    rw [dupdate_lookup_of_mem md0 mdY k v hnd hv, hv]
  · intro hts
    rw [hu4, dset_lookup_ne u3 _ _ _ (by decide), hu3,
      dset_lookup_ne u2 _ _ _ (by decide), hu2,
      dset_lookup_ne u1 _ _ _ (by decide), hu1,
      dset_lookup_ne u0 _ _ _ (by decide), hu0]
    exact dupdate_lookup_of_none md0 mdY _ hts
  · intro v row rest hseries
    exact get_hdf5_metadata_ts_start raw md0 v row rest hmd hseries

/-- Witness for C5's amended statement on the concrete scenario. -/
theorem c5_merge_semantics_witness :
    get_hdf5_metadata rawGood = .ok mdGood ∧
    c5fs.yamlFiles "cfg/uv_config.yaml" = some c5yaml ∧
    noDupKeysB c5yaml = true ∧
    load_observation_metadata c5fs "/pkg" "1.0" (fun _ => "cfg") (fun p => p)
      rawGood (some "cfg/uv_config.yaml") none = .ok c5res ∧
    (c5yaml.lookup "ts_start" = none →
      c5res.lookup "ts_start" = mdGood.lookup "ts_start") :=
  ⟨rfl, rfl, by decide, rfl,
   (c5_merge_semantics c5fs "/pkg" "1.0" "cfg/uv_config.yaml" (fun _ => "cfg")
     (fun p => p) rawGood mdGood c5yaml c5res "antennas.txt" "baselines.txt"
     rfl rfl (by decide) (by decide) (by decide) rfl).2.1⟩

/-! ## Lemmas for the uv5 codec roundtrip (C1) -/

theorem lookup_map_snd {β γ : Type} (l : List (String × β)) (f : β → γ)
    (k : String) :
    (l.map fun kv => (kv.1, f kv.2)).lookup k = (l.lookup k).map f := by
  induction l with
  | nil => rfl
  | cons a l ih =>
      cases hb : k == a.1 <;> simp [List.lookup, hb, ih]

theorem mem_of_lookup {β : Type} (l : List (String × β)) (k : String)
    (v : β) (h : l.lookup k = some v) : (k, v) ∈ l := by
  induction l with
  | nil => cases h
  | cons a l ih =>
      cases hb : k == a.1
      · simp only [List.lookup, hb] at h
        exact List.mem_cons_of_mem a (ih h)
      · have hk : k = a.1 := by simpa using hb
        simp only [List.lookup, hb] at h
        have hv : a.2 = v := by simpa using h
        rw [hk, ← hv]
        exact List.mem_cons_self _ _

theorem wpa_lookup (d : PDict) (hnd : noDupKeysB d = true) (k : String) :
    (writeProvAttrs d).lookup k =
      (match d.lookup k with
       | some (.scalar v) => some v
       | _ => none) := by
  induction d with
  | nil => rfl
  | cons a l ih =>
      simp only [noDupKeysB, Bool.and_eq_true] at hnd
      rcases a with ⟨k0, v0⟩
      cases v0 with
      | scalar v =>
          cases hb : k == k0
          · simp only [writeProvAttrs, List.filterMap_cons, List.lookup, hb]
            exact ih hnd.2
          · simp [writeProvAttrs, List.lookup, hb]
      | dict dd =>
          cases hb : k == k0
          · simp only [writeProvAttrs, List.filterMap_cons]
            simp only [List.lookup, hb]
            exact ih hnd.2
          · have hk : k = k0 := by simpa using hb
            have hn : l.lookup k = none := by
              rw [hk]
              simpa [Option.isNone_iff_eq_none] using hnd.1
            simp only [writeProvAttrs, List.filterMap_cons]
            have := ih hnd.2
            rw [show writeProvAttrs l =
              List.filterMap (fun kv => match kv.2 with
                | PVal.scalar v => some (kv.1, v)
                | PVal.dict _ => none) l from rfl] at this
            rw [this, hn, List.lookup, hb]

theorem wpg_lookup (d : PDict) (hnd : noDupKeysB d = true) (k : String) :
    (writeProvGroups d).lookup k =
      (match d.lookup k with
       | some (.dict dd) => some (writeAttrs dd)
       | _ => none) := by
  induction d with
  | nil => rfl
  | cons a l ih =>
      simp only [noDupKeysB, Bool.and_eq_true] at hnd
      rcases a with ⟨k0, v0⟩
      cases v0 with
      | dict dd =>
          cases hb : k == k0
          · simp only [writeProvGroups, List.filterMap_cons, List.lookup, hb]
            exact ih hnd.2
          · simp [writeProvGroups, List.lookup, hb]
      | scalar v =>
          cases hb : k == k0
          · simp only [writeProvGroups, List.filterMap_cons]
            simp only [List.lookup, hb]
            exact ih hnd.2
          · have hk : k = k0 := by simpa using hb
            have hn : l.lookup k = none := by
              rw [hk]
              simpa [Option.isNone_iff_eq_none] using hnd.1
            simp only [writeProvGroups, List.filterMap_cons]
            have := ih hnd.2
            rw [show writeProvGroups l =
              List.filterMap (fun kv => match kv.2 with
                | PVal.scalar _ => none
                | PVal.dict dd => some (kv.1, writeAttrs dd)) l from rfl] at this
            rw [this, hn, List.lookup, hb]

theorem noDup_wpa (d : PDict) (hnd : noDupKeysB d = true) :
    noDupKeysB (writeProvAttrs d) = true := by
  induction d with
  | nil => rfl
  | cons a l ih =>
      simp only [noDupKeysB, Bool.and_eq_true] at hnd
      rcases a with ⟨k0, v0⟩
      have hn : l.lookup k0 = none := by
        simpa [Option.isNone_iff_eq_none] using hnd.1
      cases v0 with
      | scalar v =>
          simp only [writeProvAttrs, List.filterMap_cons, noDupKeysB,
            Bool.and_eq_true]
          refine ⟨?_, ih hnd.2⟩
          rw [show List.filterMap (fun kv => match kv.2 with
              | PVal.scalar v => some (kv.1, v)
              | PVal.dict _ => none) l = writeProvAttrs l from rfl,
            wpa_lookup l hnd.2 k0, hn]
          rfl
      | dict dd =>
          simp only [writeProvAttrs, List.filterMap_cons]
          exact ih hnd.2

theorem noDup_wpg (d : PDict) (hnd : noDupKeysB d = true) :
    noDupKeysB (writeProvGroups d) = true := by
  induction d with
  | nil => rfl
  | cons a l ih =>
      simp only [noDupKeysB, Bool.and_eq_true] at hnd
      rcases a with ⟨k0, v0⟩
      have hn : l.lookup k0 = none := by
        simpa [Option.isNone_iff_eq_none] using hnd.1
      cases v0 with
      | dict dd =>
          simp only [writeProvGroups, List.filterMap_cons, noDupKeysB,
            Bool.and_eq_true]
          refine ⟨?_, ih hnd.2⟩
          rw [show List.filterMap (fun kv => match kv.2 with
              | PVal.scalar _ => none
              | PVal.dict dd => some (kv.1, writeAttrs dd)) l =
              writeProvGroups l from rfl,
            wpg_lookup l hnd.2 k0, hn]
          rfl
      | scalar v =>
          simp only [writeProvGroups, List.filterMap_cons]
          exact ih hnd.2

theorem readProv_eq_dupdate (a : Attrs) (g : List (String × Attrs)) :
    readProv a g =
      dupdate ((dnorm a).map fun kv => (kv.1, PVal.scalar kv.2))
        (g.map fun kg => (kg.1, PVal.dict (dnorm kg.2))) := by
  unfold readProv dupdate
  rw [List.foldl_map]

theorem readProv_write_lookup (d : PDict) (hwf : pdictWfB d = true)
    (k : String) :
    (readProv (writeProvAttrs d) (writeProvGroups d)).lookup k =
      d.lookup k := by
  simp only [pdictWfB, Bool.and_eq_true] at hwf
  obtain ⟨hnd, hinner⟩ := hwf
  rw [readProv_eq_dupdate]
  rw [dnorm_self (writeProvAttrs d) (noDup_wpa d hnd)]
  have hsc := lookup_map_snd (writeProvAttrs d) PVal.scalar k
  have hgr := lookup_map_snd (writeProvGroups d)
    (fun dd => PVal.dict (dnorm dd)) k
  have hndg : noDupKeysB ((writeProvGroups d).map fun kg =>
      (kg.1, PVal.dict (dnorm kg.2))) = true := by
    have h0 := noDup_wpg d hnd
    revert h0
    generalize writeProvGroups d = g
    intro h0
    induction g with
    | nil => rfl
    | cons a l ih =>
        simp only [noDupKeysB, Bool.and_eq_true] at h0
        simp only [List.map_cons, noDupKeysB, Bool.and_eq_true]
        refine ⟨?_, ih h0.2⟩
        rw [lookup_map_snd l (fun dd => PVal.dict (dnorm dd)) a.1]
        have h1 := h0.1
        simp only [Option.isNone_iff_eq_none] at h1
        rw [h1]
        rfl
  cases hd : d.lookup k with
  | none =>
      rw [dupdate_lookup_of_none _ _ _ (by
        rw [hgr, wpg_lookup d hnd k, hd]; rfl)]
      rw [hsc, wpa_lookup d hnd k, hd]
      rfl
  | some pv =>
      cases pv with
      | scalar v =>
          rw [dupdate_lookup_of_none _ _ _ (by
            rw [hgr, wpg_lookup d hnd k, hd]; rfl)]
          rw [hsc, wpa_lookup d hnd k, hd]
          rfl
      | dict dd =>
          have hddnd : noDupKeysB dd = true := by
            have hmem := mem_of_lookup d k (PVal.dict dd) hd
            have := List.all_eq_true.mp hinner _ hmem
            simpa using this
          have hlg : ((writeProvGroups d).map fun kg =>
              (kg.1, PVal.dict (dnorm kg.2))).lookup k =
              some (PVal.dict dd) := by
            rw [hgr, wpg_lookup d hnd k, hd]
            show some (PVal.dict (dnorm (writeAttrs dd))) = some (PVal.dict dd)
            rw [show dnorm (writeAttrs dd) = dd from by
              rw [show (writeAttrs dd : Attrs) = dnorm dd from rfl,
                dnorm_self (dnorm dd) (noDup_dnorm dd), dnorm_self dd hddnd]]
          rw [dupdate_lookup_of_mem _ _ _ _ hndg hlg]

theorem map_div15_mul15 (l : List ℚ) :
    (l.map fun v => v / 15).map (fun v => v * 15) = l := by
  induction l with
  | nil => rfl
  | cons x l ih =>
      simp only [List.map_cons, ih, List.cons.injEq, and_true]
      rw [div_mul_cancel₀ x (by norm_num : (15 : ℚ) ≠ 0)]

set_option maxHeartbeats 1000000 in
/-- C1 amended: roundtripping a well-formed UV model through the uv5
codec reproduces the visibility tensor, every coordinate value array,
the frequency-coordinate attributes, the antenna table (values,
coordinates and attribute arrays), the phase-center angles and the
provenance / context dictionaries — but not every field: the data
array's attributes (the unit tag included) are replaced by the antenna
attribute dictionary, the time / polarization coordinates gain a
description attribute and the baseline coordinate keeps only one, the
sub-coordinate (mjd / lst / unix / ant1 / ant2) and antenna-coordinate
attributes are dropped, the ENU / ECEF arrays gain a dims attribute, and
a scalar phase center comes back as a length-1 vector. -/
theorem c1_roundtrip (m : UVM) (v : String) (m' : UVM)
    (hwf : c1wf m)
    (hrun : uv5_to_uv (uv_to_uv5 v m) = .ok m') :
    (m'.name = m.name ∧
     m'.data.values = m.data.values ∧
     m'.data.time.mjd.values = m.data.time.mjd.values ∧
     m'.data.time.lst.values = m.data.time.lst.values ∧
     m'.data.time.unix.values = m.data.time.unix.values ∧
     m'.data.baseline.ant1.values = m.data.baseline.ant1.values ∧
     m'.data.baseline.ant2.values = m.data.baseline.ant2.values ∧
     m'.data.polarization.values = m.data.polarization.values ∧
     m'.data.frequency = m.data.frequency ∧
     m'.antennas.enu.values = m.antennas.enu.values ∧
     m'.antennas.ecef.values = m.antennas.ecef.values ∧
     m'.antennas.antenna.values = m.antennas.antenna.values ∧
     m'.antennas.spatial.values = m.antennas.spatial.values ∧
     m'.antennas.identifier = m.antennas.identifier ∧
     m'.antennas.flags = m.antennas.flags ∧
     m'.antennas.array_origin_geocentric = m.antennas.array_origin_geocentric ∧
     m'.antennas.array_origin_geodetic = m.antennas.array_origin_geodetic ∧
     m'.phase_center.ra_deg = m.phase_center.ra_deg ∧
     m'.phase_center.dec_deg = m.phase_center.dec_deg ∧
     (∀ k, m'.provenance.lookup k = m.provenance.lookup k) ∧
     (∀ k, m'.context.lookup k = m.context.lookup k)) ∧
    (m'.data.attrs =
       [("identifier", .xs m.antennas.identifier),
        ("flags", .xi m.antennas.flags),
        ("array_origin_geocentric", .xq m.antennas.array_origin_geocentric),
        ("array_origin_geodetic", .xq m.antennas.array_origin_geodetic)] ∧
     m'.data.time.attrs =
       m.data.time.attrs ++ [("description", .s "Time coordinate")] ∧
     m'.data.time.mjd.attrs = [] ∧
     m'.data.time.lst.attrs = [] ∧
     m'.data.time.unix.attrs = [] ∧
     m'.data.baseline.attrs =
       [("description",
         .s "Antenna baseline coordinate. UVW defined as ant2 - ant1.")] ∧
     m'.data.baseline.ant1.attrs = [] ∧
     m'.data.baseline.ant2.attrs = [] ∧
     m'.data.polarization.attrs =
       m.data.polarization.attrs ++
         [("description", .s "Polarization products coordinate")] ∧
     m'.antennas.enu.attrs =
       m.antennas.enu.attrs ++ [("dims", .sArr ["antenna", "spatial"])] ∧
     m'.antennas.ecef.attrs =
       m.antennas.ecef.attrs ++ [("dims", .sArr ["antenna", "spatial"])] ∧
     m'.antennas.antenna.attrs = [] ∧
     m'.antennas.spatial.attrs = [] ∧
     m'.phase_center.isscalar = false) := by
  obtain ⟨hT, hTd, hP, hPd, hF, hE, hEd, hC, hCd, hI, hFl, hGc, hGcu, hGd,
    hGdu, hProv, hCtx⟩ := hwf
  obtain ⟨gu0, hgu⟩ := Option.isSome_iff_exists.mp hGdu
  obtain ⟨cu, hcu⟩ := Option.isSome_iff_exists.mp hGcu
  unfold uv5_to_uv at hrun
  obtain ⟨gu2, hgu2, hrun⟩ := ebind_ok_inv _ _ _ hrun
  have e_geod : dnorm ((uv_to_uv5 v m).ant_origin_geodetic_attrs) =
      m.antennas.array_origin_geodetic.attrs := by
    show dnorm (dnorm m.antennas.array_origin_geodetic.attrs) = _
    rw [dnorm_self _ (noDup_dnorm _), dnorm_self _ hGd]
  have hg : gu2 = gu0 := by
    have h2 : dget m.antennas.array_origin_geodetic.attrs "unit" = .ok gu2 := by
      rw [← e_geod]
      exact hgu2
    unfold dget at h2
    rw [hgu] at h2
    have h3 : Except.ok gu0 = Except.ok gu2 := h2
    exact (Except.ok.inj h3).symm
  rw [← hg] at hgu
  obtain ⟨ru, hru, hrun⟩ := ebind_ok_inv _ _ _ hrun
  have hg2 : Val.s "hourangle" = ru :=
    Except.ok.inj (show Except.ok (Val.s "hourangle") = Except.ok ru from hru)
  subst hg2
  obtain ⟨du, hdu, hrun⟩ := ebind_ok_inv _ _ _ hrun
  have hg3 : Val.s "deg" = du :=
    Except.ok.inj (show Except.ok (Val.s "deg") = Except.ok du from hdu)
  subst hg3
  obtain ⟨raDeg, hra, hrun⟩ := ebind_ok_inv _ _ _ hrun
  have hg4 : ((m.phase_center.ra_deg.map fun q => q / 15).map
      fun q => q * 15) = raDeg :=
    Except.ok.inj (show Except.ok ((m.phase_center.ra_deg.map
      fun q => q / 15).map fun q => q * 15) = Except.ok raDeg from hra)
  subst hg4
  obtain ⟨decDeg, hdec, hrun⟩ := ebind_ok_inv _ _ _ hrun
  have hg5 : m.phase_center.dec_deg = decDeg :=
    Except.ok.inj (show Except.ok m.phase_center.dec_deg =
      Except.ok decDeg from hdec)
  subst hg5
  obtain ⟨ou, hou, hrun⟩ := ebind_ok_inv _ _ _ hrun
  cases hrun
  have e_norm : ∀ a : Attrs, noDupKeysB a = true → dnorm (dnorm a) = a :=
    fun a ha => by rw [dnorm_self _ (noDup_dnorm _), dnorm_self _ ha]
  refine ⟨⟨rfl, rfl, rfl, rfl, rfl, rfl, rfl, rfl, ?_, rfl, rfl, rfl, rfl,
    ?_, ?_, ?_, ?_, ?_, rfl, ?_, ?_⟩,
    ⟨?_, ?_, rfl, rfl, rfl, rfl, rfl, rfl, ?_, ?_, ?_, rfl, rfl, rfl⟩⟩
  · show (⟨m.data.frequency.values,
      dupdate (dnorm (dnorm m.data.frequency.attrs))
        (dnorm m.data.frequency.attrs)⟩ : CoordQ) = m.data.frequency
    rw [e_norm _ hF, dnorm_self _ hF, dupdate_self _ hF]
  · show (⟨m.antennas.identifier.values,
      dnorm (dnorm m.antennas.identifier.attrs)⟩ : CoordS) =
      m.antennas.identifier
    rw [e_norm _ hI]
  · show (⟨m.antennas.flags.values,
      dnorm (dnorm m.antennas.flags.attrs)⟩ : CoordI) = m.antennas.flags
    rw [e_norm _ hFl]
  · show (⟨m.antennas.array_origin_geocentric.values,
      dnorm (dnorm m.antennas.array_origin_geocentric.attrs)⟩ : CoordQ) =
      m.antennas.array_origin_geocentric
    rw [e_norm _ hGc]
  · show (⟨m.antennas.array_origin_geodetic.values,
      dset (dnorm (dnorm m.antennas.array_origin_geodetic.attrs))
        "unit" gu2⟩ : CoordQ) = m.antennas.array_origin_geodetic
    rw [e_norm _ hGd, dset_of_lookup_self _ _ _ hgu]
  · exact map_div15_mul15 m.phase_center.ra_deg
  · intro k
    exact readProv_write_lookup m.provenance hProv k
  · intro k
    exact readProv_write_lookup m.context hCtx k
  · show ([("identifier", XVal.xs ⟨m.antennas.identifier.values,
        dnorm (dnorm m.antennas.identifier.attrs)⟩),
      ("flags", XVal.xi ⟨m.antennas.flags.values,
        dnorm (dnorm m.antennas.flags.attrs)⟩),
      ("array_origin_geocentric", XVal.xq
        ⟨m.antennas.array_origin_geocentric.values,
         dnorm (dnorm m.antennas.array_origin_geocentric.attrs)⟩),
      ("array_origin_geodetic", XVal.xq
        ⟨m.antennas.array_origin_geodetic.values,
         dset (dnorm (dnorm m.antennas.array_origin_geodetic.attrs))
           "unit" gu2⟩)] : XAttrs) = _
    rw [e_norm _ hI, e_norm _ hFl, e_norm _ hGc, e_norm _ hGd,
      dset_of_lookup_self _ _ _ hgu]
  · show dnorm (dset (dnorm m.data.time.attrs) "description"
      (Val.s "Time coordinate")) = _
    rw [dnorm_self m.data.time.attrs hT,
      dnorm_self _ (noDup_dset _ _ _ hT), dset_of_lookup_none _ _ _ hTd]
  · show dnorm (dset (dnorm m.data.polarization.attrs) "description"
      (Val.s "Polarization products coordinate")) = _
    rw [dnorm_self m.data.polarization.attrs hP,
      dnorm_self _ (noDup_dset _ _ _ hP), dset_of_lookup_none _ _ _ hPd]
  · show dnorm (dset (dnorm m.antennas.enu.attrs) "dims"
      (Val.sArr ["antenna", "spatial"])) = _
    rw [dnorm_self m.antennas.enu.attrs hE,
      dnorm_self _ (noDup_dset _ _ _ hE), dset_of_lookup_none _ _ _ hEd]
  · show dnorm (dset (dnorm m.antennas.ecef.attrs) "dims"
      (Val.sArr ["antenna", "spatial"])) = _
    rw [dnorm_self m.antennas.ecef.attrs hC,
      dnorm_self _ (noDup_dset _ _ _ hC), dset_of_lookup_none _ _ _ hCd]

/-- C1 counterexample: roundtripping a concrete UV model through the uv5
codec does not reproduce every field: the data array's attrs lose the
unit tag (they are replaced by the antenna attribute dictionary), the
time coordinate gains a description attribute, and the scalar phase
center comes back non-scalar. -/
theorem c1_counterexample :
    uv5_to_uv (uv_to_uv5 "1.0" c1m0) = .ok c1rt ∧
    c1m0.data.attrs.lookup "unit" = some (.av (.s "uncalibrated")) ∧
    c1rt.data.attrs.lookup "unit" = none ∧
    c1rt.data.attrs ≠ c1m0.data.attrs ∧
    c1m0.data.time.attrs.lookup "description" = none ∧
    c1rt.data.time.attrs.lookup "description" =
      some (.s "Time coordinate") ∧
    c1m0.phase_center.isscalar = true ∧
    c1rt.phase_center.isscalar = false := by
  refine ⟨rfl, rfl, rfl, ?_, rfl, rfl, rfl, rfl⟩
  intro h
  have h2 := congrArg (List.lookup "unit") h
  rw [show List.lookup "unit" c1rt.data.attrs = none from rfl,
    show List.lookup "unit" c1m0.data.attrs =
      some (XVal.av (Val.s "uncalibrated")) from rfl] at h2
  cases h2

/-- Witness for C1's amended statement on the concrete model. -/
theorem c1_roundtrip_witness :
    c1wf c1m0 ∧
    uv5_to_uv (uv_to_uv5 "1.0" c1m0) = .ok c1rt ∧
    c1rt.name = c1m0.name ∧
    c1rt.data.values = c1m0.data.values ∧
    c1rt.data.time.attrs =
      c1m0.data.time.attrs ++ [("description", .s "Time coordinate")] ∧
    c1rt.phase_center.ra_deg = c1m0.phase_center.ra_deg :=
  ⟨by decide, rfl,
   (c1_roundtrip c1m0 "1.0" c1rt (by decide) rfl).1.1,
   (c1_roundtrip c1m0 "1.0" c1rt (by decide) rfl).1.2.1,
   (c1_roundtrip c1m0 "1.0" c1rt (by decide) rfl).2.2.1,
   (c1_roundtrip c1m0 "1.0" c1rt (by decide) rfl).1.2.2.2.2.2.2.2.2.2.2.2.2.2.2.2.2.2.1⟩

end AaUv
